import Mathlib

/-
  Verification of the baseball-game backend game engine.

  Shallow embedding of:
    backend/app/services/game_engine.py      (game state machine, simulator)
    backend/app/services/stats_calculator.py (outcome-weight adjustment)

  Conventions of the embedding:
  - The Python game-state dict becomes the `GameState` structure; the three
    bases booleans `bases[0..2]` become the `Bases` record (first, second,
    third).
  - Randomness (pitch selection, swing decision, outcome sampling) is
    external input: `determine_outcome` results are passed in as `Outcome`
    values, and the simulator consumes a stream `Nat -> SimInput`.
  - Python float arithmetic in stats_calculator.py is modelled over the
    rationals; the built-in `round` (round-half-to-even) is `pyRound`.
  - Out-of-range list indexing raises in Python; `scoreRuns` models the
    write with `List.set` (out-of-range writes are no-ops) and the
    reachability invariant shows the index is always in range while the
    game is active.
-/

namespace BaseballGame

/-- The closed set of pitch outcomes produced by probabilities.py. -/
inductive Outcome where
  | ball
  | strike_looking
  | strike_swinging
  | foul
  | groundout
  | flyout
  | lineout
  | single
  | double
  | triple
  | homerun
deriving DecidableEq

/-- Name of an outcome as used in the Python weight tables and messages. -/
def outcomeName : Outcome → String
  | .ball => "ball"
  | .strike_looking => "strike_looking"
  | .strike_swinging => "strike_swinging"
  | .foul => "foul"
  | .groundout => "groundout"
  | .flyout => "flyout"
  | .lineout => "lineout"
  | .single => "single"
  | .double => "double"
  | .triple => "triple"
  | .homerun => "homerun"

/-- `bases` list `[False, False, False]` for first, second, third base. -/
structure Bases where
  first : Bool
  second : Bool
  third : Bool
deriving DecidableEq, Inhabited

/-- A lineup entry; only the display name is relevant to the state machine
(batting stats feed the randomized outcome sampling, which is an input). -/
structure Batter where
  name : String
deriving DecidableEq, Inhabited

/-- A starting pitcher record (stats feed the randomized sampling only). -/
structure Pitcher where
  name : String
deriving DecidableEq, Inhabited

/-- The `player_role` field: "pitching" or "batting". -/
inductive Role where
  | pitching
  | batting
deriving DecidableEq, Inhabited

/-- The `game_status` field: "active" or "final". -/
inductive Status where
  | active
  | final
deriving DecidableEq, Inhabited

/-- The game-state dict of game_engine.py. -/
structure GameState where
  game_id : String
  inning : Nat
  is_top : Bool
  outs : Nat
  balls : Nat
  strikes : Nat
  bases : Bases
  away_score : List Nat
  home_score : List Nat
  away_total : Nat
  home_total : Nat
  player_role : Role
  game_status : Status
  play_log : List String
  last_play : String
  away_team : Option String
  home_team : Option String
  away_abbreviation : Option String
  home_abbreviation : Option String
  away_lineup : Option (List Batter)
  home_lineup : Option (List Batter)
  away_batter_idx : Nat
  home_batter_idx : Nat
  current_batter_index : Nat
  current_batter_name : String
  home_pitcher : Option Pitcher
  away_pitcher : Option Pitcher
deriving DecidableEq

/-- `TOTAL_INNINGS = 9`. -/
def TOTAL_INNINGS : Nat := 9

/-- `_empty_state()`. -/
def emptyState : GameState where
  game_id := ""
  inning := 1
  is_top := true
  outs := 0
  balls := 0
  strikes := 0
  bases := ⟨false, false, false⟩
  away_score := List.replicate TOTAL_INNINGS 0
  home_score := List.replicate TOTAL_INNINGS 0
  away_total := 0
  home_total := 0
  player_role := .pitching
  game_status := .active
  play_log := []
  last_play := ""
  away_team := none
  home_team := none
  away_abbreviation := none
  home_abbreviation := none
  away_lineup := none
  home_lineup := none
  away_batter_idx := 0
  home_batter_idx := 0
  current_batter_index := 0
  current_batter_name := ""
  home_pitcher := none
  away_pitcher := none

/-- `_get_current_batter(state)`: returns the updated state together with the
batter (Python mutates `current_batter_index` and `current_batter_name` in
place and returns the batter, or `None` when no lineup is loaded). -/
def getCurrentBatter (s : GameState) : GameState × Option Batter :=
  match (if s.is_top then s.away_lineup else s.home_lineup),
        (if s.is_top then s.away_batter_idx else s.home_batter_idx) with
  | none, _ => (s, none)
  | some l, idx =>
    if l.length = 0 then (s, none)
    else
      ({ s with current_batter_index := idx % l.length,
                current_batter_name :=
                  (l.getD (idx % l.length) { name := "" }).name },
       some (l.getD (idx % l.length) { name := "" }))

/-- `_advance_batter(state)`. -/
def advanceBatter (s : GameState) : GameState :=
  if s.is_top then
    match s.away_lineup with
    | none => s
    | some l =>
      if l.length = 0 then s
      else { s with away_batter_idx := (s.away_batter_idx + 1) % l.length }
  else
    match s.home_lineup with
    | none => s
    | some l =>
      if l.length = 0 then s
      else { s with home_batter_idx := (s.home_batter_idx + 1) % l.length }

/-- `_format_outcome(outcome)`: underscores to spaces, title case. -/
def formatOutcome (o : Outcome) : String :=
  " ".intercalate ((((outcomeName o).replace "_" " ").splitOn " ").map
    String.capitalize)

/-- `_reset_count(state)`. -/
def resetCount (s : GameState) : GameState :=
  { s with balls := 0, strikes := 0 }

/-- `_advance_runners_walk(bases)`: returns the new bases and runs scored.
The sequential in-place mutations are modelled by shadowing; each condition
reads only fields not yet written at that point in the Python code. -/
def advanceRunnersWalk (b : Bases) : Bases × Nat :=
  let runs := if b.first && b.second && b.third then 1 else 0
  let b := if b.first && b.second then { b with third := true } else b
  let b := if b.first then { b with second := true } else b
  ({ b with first := true }, runs)

/-- `_advance_runners_hit(bases, hit_type)`: new bases and runs scored. -/
def advanceRunnersHit (b : Bases) (hitType : Outcome) : Bases × Nat :=
  match hitType with
  | .single =>
    let runs := if b.third then 1 else 0
    let b1 := if b.third then { b with third := false } else b
    let b2 := if b1.second then { b1 with third := true, second := false } else b1
    let b3 := if b2.first then { b2 with second := true, first := false } else b2
    ({ b3 with first := true }, runs)
  | .double =>
    let runs := (if b.third then 1 else 0) + (if b.second then 1 else 0)
    let b1 := if b.first then { b with third := true, first := false }
              else { b with third := false }
    ({ b1 with second := true }, runs)
  | .triple =>
    let runs := (if b.first then 1 else 0) + (if b.second then 1 else 0) +
      (if b.third then 1 else 0)
    (⟨false, false, true⟩, runs)
  | .homerun =>
    let runs := (if b.first then 1 else 0) + (if b.second then 1 else 0) +
      (if b.third then 1 else 0) + 1
    (⟨false, false, false⟩, runs)
  | _ => (b, 0)

/-- `_score_runs(state, runs)`. Python indexes `inning - 1` into both score
lists (raising when out of range); here the write is a no-op when out of
range, and the reachability invariant shows it never is while active. -/
def scoreRuns (s : GameState) (runs : Nat) : GameState :=
  if runs = 0 then s
  else if s.is_top then
    { s with away_score := s.away_score.set (s.inning - 1)
               (s.away_score.getD (s.inning - 1) 0 + runs),
             away_total := s.away_total + runs }
  else
    { s with home_score := s.home_score.set (s.inning - 1)
               (s.home_score.getD (s.inning - 1) 0 + runs),
             home_total := s.home_total + runs }

/-- `state.get("home_team") or "Home"` — Python `or` also replaces the empty
string. -/
def orDefault (x : Option String) (d : String) : String :=
  match x with
  | none => d
  | some n => if n = "" then d else n

/-- `_end_game(state)`. -/
def endGame (s : GameState) : GameState :=
  let s := { s with game_status := .final }
  let homeName := orDefault s.home_team "Home"
  let awayName := orDefault s.away_team "Away"
  let winner := if s.home_total > s.away_total then "You win!" else "You lose!"
  let msg := "Game Over! Final: " ++ homeName ++ " " ++ toString s.home_total ++
    " - " ++ awayName ++ " " ++ toString s.away_total ++ ". " ++ winner
  { s with play_log := s.play_log ++ [msg], last_play := msg }

/-- `_end_half_inning(state)`. -/
def endHalfInning (s : GameState) : GameState :=
  let s := resetCount { s with outs := 0, bases := ⟨false, false, false⟩ }
  if s.is_top then
    let s := { s with is_top := false, player_role := .batting }
    let half := "Bottom of inning " ++ toString s.inning
    if s.inning ≥ TOTAL_INNINGS ∧ s.home_total > s.away_total then
      endGame s
    else
      let s := (getCurrentBatter s).1
      let msg := "--- " ++ half ++ " ---"
      { s with play_log := s.play_log ++ [msg], last_play := msg }
  else
    let s := { s with inning := s.inning + 1, is_top := true,
                      player_role := .pitching }
    let half := "Top of inning " ++ toString s.inning
    if s.inning > TOTAL_INNINGS ∧ s.home_total ≠ s.away_total then
      endGame s
    else
      let s := if s.inning > s.away_score.length then
                 { s with away_score := s.away_score ++ [0],
                          home_score := s.home_score ++ [0] }
               else s
      let s := (getCurrentBatter s).1
      let msg := "--- " ++ half ++ " ---"
      { s with play_log := s.play_log ++ [msg], last_play := msg }

/-- `_walk(state)`. -/
def walk (s : GameState) : GameState :=
  let msg := "Ball four — batter walks!"
  let s := { s with play_log := s.play_log ++ [msg], last_play := msg }
  let rb := advanceRunnersWalk s.bases
  let s := { s with bases := rb.1 }
  let s := scoreRuns s rb.2
  let s := resetCount s
  let s := advanceBatter s
  (getCurrentBatter s).1

/-- `_record_out(state, description)`. -/
def recordOut (s : GameState) (description : String) : GameState :=
  let s := { s with play_log := s.play_log ++ [description],
                    last_play := description }
  let s := { s with outs := s.outs + 1 }
  let s := resetCount s
  let s := advanceBatter s
  if s.outs ≥ 3 then endHalfInning s else (getCurrentBatter s).1

/-- `_record_hit(state, hit_type)`. -/
def recordHit (s : GameState) (hitType : Outcome) : GameState :=
  let rb := advanceRunnersHit s.bases hitType
  let runs := rb.2
  let s := { s with bases := rb.1 }
  let s := scoreRuns s runs
  let s := resetCount s
  let s := advanceBatter s
  let s := (getCurrentBatter s).1
  if runs > 0 then
    { s with play_log := s.play_log ++ [toString runs ++ " run(s) score!"],
             last_play := s.last_play ++ " " ++ toString runs ++ " run(s) score!" }
  else s

/-- `_apply_outcome(state, outcome, msg)`. -/
def applyOutcome (s : GameState) (o : Outcome) (msg : String) : GameState :=
  let s := { s with play_log := s.play_log ++ [msg], last_play := msg }
  match o with
  | .ball =>
    let s := { s with balls := s.balls + 1 }
    if s.balls ≥ 4 then walk s else s
  | .strike_looking | .strike_swinging =>
    let s := { s with strikes := s.strikes + 1 }
    if s.strikes ≥ 3 then recordOut s "Strikeout!" else s
  | .foul =>
    if s.strikes < 2 then { s with strikes := s.strikes + 1 } else s
  | .groundout | .flyout | .lineout =>
    recordOut s (formatOutcome o ++ "!")
  | .single | .double | .triple | .homerun =>
    recordHit s o

/-- Inputs to `process_pitch` that the engine samples at random
(`cpu_decides_swing`, `determine_outcome`) plus the caller's pitch type. -/
structure PitchInput where
  pitchType : String
  swings : Bool
  outcome : Outcome

/-- `process_pitch` body after the game has been fetched from the store. -/
def processPitch (s : GameState) (inp : PitchInput) : GameState :=
  if s.game_status ≠ .active then s
  else if s.player_role ≠ .pitching then
    { s with last_play := "You\x27re batting right now, not pitching!" }
  else
    let sb := getCurrentBatter s
    let s := sb.1
    let batterName := (sb.2.map (·.name)).getD "Batter"
    let actionStr := if inp.swings then "swings" else "takes"
    let msg := "You throw a " ++ inp.pitchType ++ ". " ++ batterName ++ " " ++
      actionStr ++ ": " ++ formatOutcome inp.outcome ++ "!"
    applyOutcome s inp.outcome msg

/-- Inputs to `process_at_bat`: the caller's action plus the randomly
sampled pitch type and outcome. -/
structure BatInput where
  action : String
  pitchType : String
  outcome : Outcome

/-- `process_at_bat` body after the game has been fetched from the store. -/
def processAtBat (s : GameState) (inp : BatInput) : GameState :=
  if s.game_status ≠ .active then s
  else if s.player_role ≠ .batting then
    { s with last_play := "You\x27re pitching right now, not batting!" }
  else
    let sb := getCurrentBatter s
    let s := sb.1
    let swings := inp.action = "swing"
    let actionStr := if swings then "swing" else "take"
    let msg := "Pitcher throws a " ++ inp.pitchType ++ ". You " ++ actionStr ++
      ": " ++ formatOutcome inp.outcome ++ "!"
    applyOutcome s inp.outcome msg

/-- The in-memory game store (game_store.py): id → state. -/
def Store : Type := String → Option GameState

/-- `process_pitch(game_id, ...)` at the store level. A missing or finished
game leaves the store untouched; otherwise the (aliased, then saved) state
for `game_id` is replaced by the processed state. -/
def processPitchStore (st : Store) (gid : String) (inp : PitchInput) : Store :=
  match st gid with
  | none => st
  | some s =>
    if s.game_status = .active then
      fun g => if g = gid then some (processPitch s inp) else st g
    else st

/-- `process_at_bat(game_id, ...)` at the store level. -/
def processAtBatStore (st : Store) (gid : String) (inp : BatInput) : Store :=
  match st gid with
  | none => st
  | some s =>
    if s.game_status = .active then
      fun g => if g = gid then some (processAtBat s inp) else st g
    else st

/-- `create_new_game` fallback path (no MLB data). -/
def createNewGame (gid : String) : GameState :=
  let s := { emptyState with game_id := gid }
  let msg := "Play Ball! You\x27re the home team."
  { s with play_log := s.play_log ++ [msg], last_play := msg }

/-- `create_new_game` with team data resolved; the external MLB lookups are
parameters (team names, lineups, pitchers). -/
def createNewGameWithTeams (gid homeTeam homeAbbr awayTeam awayAbbr : String)
    (homeLineup awayLineup : List Batter) (homeP awayP : Pitcher) : GameState :=
  let s := { emptyState with
    game_id := gid
    home_team := some homeTeam
    home_abbreviation := some homeAbbr
    away_team := some awayTeam
    away_abbreviation := some awayAbbr
    home_lineup := some homeLineup
    away_lineup := some awayLineup
    home_pitcher := some homeP
    away_pitcher := some awayP }
  let s := (getCurrentBatter s).1
  let msg := "Play Ball! You\x27re the " ++ homeTeam ++ " vs the " ++
    awayTeam ++ "!"
  { s with play_log := s.play_log ++ [msg], last_play := msg }

/-- `_snapshot(state)`: the lightweight per-pitch snapshot. -/
structure Snapshot where
  inning : Nat
  is_top : Bool
  outs : Nat
  balls : Nat
  strikes : Nat
  bases : Bases
  away_score : List Nat
  home_score : List Nat
  away_total : Nat
  home_total : Nat
  player_role : Role
  game_status : Status
  last_play : String
  play_log : List String
  current_batter_name : String
  current_batter_index : Nat
  home_pitcher : Option Pitcher
  away_pitcher : Option Pitcher
  away_team : Option String
  home_team : Option String
  away_abbreviation : Option String
  home_abbreviation : Option String
deriving DecidableEq, Inhabited

/-- `_snapshot(state)`. -/
def snapshot (s : GameState) : Snapshot where
  inning := s.inning
  is_top := s.is_top
  outs := s.outs
  balls := s.balls
  strikes := s.strikes
  bases := s.bases
  away_score := s.away_score
  home_score := s.home_score
  away_total := s.away_total
  home_total := s.home_total
  player_role := s.player_role
  game_status := s.game_status
  last_play := s.last_play
  play_log := s.play_log
  current_batter_name := s.current_batter_name
  current_batter_index := s.current_batter_index
  home_pitcher := s.home_pitcher
  away_pitcher := s.away_pitcher
  away_team := s.away_team
  home_team := s.home_team
  away_abbreviation := s.away_abbreviation
  home_abbreviation := s.home_abbreviation

/-- One iteration of the simulation loop draws a pitch, a swing decision
and an outcome; these random draws are the input stream. -/
structure SimInput where
  pitchType : String
  swings : Bool
  outcome : Outcome

/-- One iteration of the `simulate_game` while-loop body. -/
def simStep (s : GameState) (inp : SimInput) : GameState :=
  if s.player_role = .pitching then
    let sb := getCurrentBatter s
    let s := sb.1
    let batterName := (sb.2.map (·.name)).getD "Batter"
    let actionStr := if inp.swings then "swings" else "takes"
    let msg := "You throw a " ++ inp.pitchType ++ ". " ++ batterName ++ " " ++
      actionStr ++ ": " ++ formatOutcome inp.outcome ++ "!"
    applyOutcome s inp.outcome msg
  else
    let sb := getCurrentBatter s
    let s := sb.1
    let actionStr := if inp.swings then "swing" else "take"
    let msg := "Pitcher throws a " ++ inp.pitchType ++ ". You " ++ actionStr ++
      ": " ++ formatOutcome inp.outcome ++ "!"
    applyOutcome s inp.outcome msg

/-- The `simulate_game` while-loop:
`while state["game_status"] == "active" and iteration < max_iterations`.
`fuel` is `max_iterations - iteration`; returns the final state, the
snapshots taken after each executed play, and the number of plays. -/
def simulateLoop (stream : Nat → SimInput) (iter fuel : Nat) (s : GameState) :
    GameState × List Snapshot × Nat :=
  match fuel with
  | 0 => (s, [], 0)
  | f + 1 =>
    if s.game_status = .active then
      let s2 := simStep s (stream iter)
      let r := simulateLoop stream (iter + 1) f s2
      (r.1, snapshot s2 :: r.2.1, r.2.2 + 1)
    else (s, [], 0)

/-- Result of `simulate_game`: final state, snapshot list (snapshot 0 is the
state before any play), and the number of loop iterations executed. -/
structure SimResult where
  state : GameState
  snapshots : List Snapshot
  iterations : Nat

/-- `simulate_game(game_id)` after the state is fetched: the guard returns a
missing or non-active game unchanged (without snapshots); otherwise the
initial snapshot is recorded and the loop runs with `max_iterations = 500`. -/
def simulateGame (stream : Nat → SimInput) (s : GameState) : SimResult :=
  if s.game_status = .active then
    let r := simulateLoop stream 0 500 s
    { state := r.1, snapshots := snapshot s :: r.2.1, iterations := r.2.2 }
  else { state := s, snapshots := [], iterations := 0 }

/- ── stats_calculator.py ───────────────────────────────────────────────── -/

/-- League average baselines. -/
def LEAGUE_AVG : ℚ := 0.245
def LEAGUE_SLG : ℚ := 0.395
def LEAGUE_K_RATE : ℚ := 0.230
def LEAGUE_ERA : ℚ := 4.30
def LEAGUE_K_PER_9 : ℚ := 8.20
def LEAGUE_BB_PER_9 : ℚ := 3.20

/-- Maximum adjustment factor. -/
def MAX_ADJ : ℚ := 0.50

def HIT_OUTCOMES : List String := ["single", "double", "triple", "homerun"]
def STRIKEOUT_OUTCOMES : List String := ["strike_swinging"]
def OUT_OUTCOMES : List String := ["groundout", "flyout", "lineout"]

/-- `_clamp(value, lo, hi)`. -/
def clamp (value lo hi : ℚ) : ℚ := max lo (min hi value)

/-- Python `round` (round-half-to-even) on an exact rational. -/
def pyRound (q : ℚ) : ℤ :=
  let f := ⌊q⌋
  let r := q - f
  if r < 1/2 then f
  else if 1/2 < r then f + 1
  else if f % 2 = 0 then f else f + 1

/-- Batter stats consumed by the adjuster (dict keys avg, slg, k_rate;
`dict.get` defaults are applied by the caller of the model). -/
structure PlayerStats where
  avg : ℚ
  slg : ℚ
  k_rate : ℚ

/-- Pitcher stats consumed by the adjuster (era, k_per_9, bb_per_9). -/
structure PitcherStats where
  era : ℚ
  k_per_9 : ℚ
  bb_per_9 : ℚ

/-- A weight table is an ordered association list outcome-name → weight,
mirroring insertion-ordered Python dicts. `rescaleRound` is the final
normalisation step shared by both adjusters:
`adjusted = {k: max(1, round(v * scale)) ...}` with
`scale = total_original / adjusted_total`, applied only when the adjusted
total is positive. -/
def rescaleRound (tbl : List (String × ℚ)) (totalOriginal : ℤ) :
    List (String × ℚ) :=
  if 0 < (tbl.map (·.2)).sum then
    tbl.map (fun p =>
      (p.1, ((max 1 (pyRound (p.2 * ((totalOriginal : ℚ) /
        (tbl.map (·.2)).sum))) : ℤ) : ℚ)))
  else tbl

/-- The batter pass of `calculate_adjusted_outcomes` (the first `for` loop):
strikeouts scale with the strikeout rate, homeruns with slugging, other
hits with batting average, outs inversely with batting average, everything
else is unchanged. -/
def batterAdjust (player : PlayerStats) (p : String × ℤ) : String × ℚ :=
  let hitMult := clamp (player.avg / LEAGUE_AVG) (1 - MAX_ADJ) (1 + MAX_ADJ)
  let powerMult := clamp (player.slg / LEAGUE_SLG) (1 - MAX_ADJ) (1 + MAX_ADJ)
  let kMult := clamp (player.k_rate / LEAGUE_K_RATE) (1 - MAX_ADJ) (1 + MAX_ADJ)
  if p.1 ∈ STRIKEOUT_OUTCOMES then (p.1, (p.2 : ℚ) * kMult)
  else if p.1 = "homerun" then (p.1, (p.2 : ℚ) * powerMult)
  else if p.1 ∈ HIT_OUTCOMES then (p.1, (p.2 : ℚ) * hitMult)
  else if p.1 ∈ OUT_OUTCOMES then
    (p.1, (p.2 : ℚ) * (if hitMult ≠ 0 then
      clamp (1 / hitMult) (1 - MAX_ADJ) (1 + MAX_ADJ) else 1))
  else (p.1, (p.2 : ℚ))

/-- The pitcher pass of `calculate_adjusted_outcomes` (the second `for`
loop): strikeouts scale with K/9, hit outcomes with ERA. -/
def pitcherAdjust (ps : PitcherStats) (p : String × ℚ) : String × ℚ :=
  let eraMult := clamp (ps.era / LEAGUE_ERA) (1 - MAX_ADJ) (1 + MAX_ADJ)
  let k9Mult := clamp (ps.k_per_9 / LEAGUE_K_PER_9) (1 - MAX_ADJ) (1 + MAX_ADJ)
  if p.1 ∈ STRIKEOUT_OUTCOMES then (p.1, p.2 * k9Mult)
  else if p.1 ∈ HIT_OUTCOMES ∨ p.1 = "homerun" then (p.1, p.2 * eraMult)
  else p

/-- The table after the batter pass and the optional pitcher pass. -/
def swingAdjusted (base : List (String × ℤ)) (player : PlayerStats)
    (pitcher : Option PitcherStats) : List (String × ℚ) :=
  match pitcher with
  | none => base.map (batterAdjust player)
  | some ps => (base.map (batterAdjust player)).map (pitcherAdjust ps)

/-- `calculate_adjusted_outcomes(base_outcomes, player_stats,
pitcher_stats)`. -/
def calculateAdjustedOutcomes (base : List (String × ℤ))
    (player : PlayerStats) (pitcher : Option PitcherStats) :
    List (String × ℚ) :=
  rescaleRound (swingAdjusted base player pitcher) ((base.map (·.2)).sum)

/-- The loop body of `calculate_adjusted_take_outcomes`: the `ball` weight
scales with BB/9, `strike_looking` scales inversely. -/
def takeAdjust (pitcher : PitcherStats) (p : String × ℤ) : String × ℚ :=
  let bbMult := clamp (pitcher.bb_per_9 / LEAGUE_BB_PER_9)
    (1 - MAX_ADJ) (1 + MAX_ADJ)
  if p.1 = "ball" then (p.1, (p.2 : ℚ) * bbMult)
  else (p.1, (p.2 : ℚ) * clamp (1 / bbMult) (1 - MAX_ADJ) (1 + MAX_ADJ))

/-- `calculate_adjusted_take_outcomes(base_outcomes, pitcher_stats)`. -/
def calculateAdjustedTakeOutcomes (base : List (String × ℤ))
    (pitcher : PitcherStats) : List (String × ℚ) :=
  rescaleRound (base.map (takeAdjust pitcher)) ((base.map (·.2)).sum)

/-- `SWING_OUTCOMES["fastball"]` (probabilities.py). -/
def swingOutcomesFastball : List (String × ℤ) :=
  [("strike_swinging", 25), ("foul", 20), ("groundout", 15), ("flyout", 12),
   ("lineout", 5), ("single", 12), ("double", 5), ("triple", 1), ("homerun", 5)]

/-- `TAKE_OUTCOMES["fastball"]` (probabilities.py). -/
def takeOutcomesFastball : List (String × ℤ) :=
  [("strike_looking", 55), ("ball", 45)]

/- ── Reachability and the state invariant ──────────────────────────────── -/

/-- The structural invariant maintained by the engine on every stored state:
count/out bounds, totals in sync with the per-inning lists, equal-length
score lists of length at least 9, and (while the game is active) the
current inning has a slot in the score lists. -/
structure Inv (s : GameState) : Prop where
  outs_le : s.outs ≤ 2
  balls_le : s.balls ≤ 3
  strikes_le : s.strikes ≤ 2
  away_sum : s.away_total = s.away_score.sum
  home_sum : s.home_total = s.home_score.sum
  len_eq : s.away_score.length = s.home_score.length
  len_ge : 9 ≤ s.away_score.length
  inning_pos : 1 ≤ s.inning
  inning_le : s.game_status = .active → s.inning ≤ s.away_score.length

/-- The scoring part of the invariant (count bounds stated separately,
because they are momentarily exceeded inside an at-bat resolution). -/
structure ScoreInv (s : GameState) : Prop where
  away_sum : s.away_total = s.away_score.sum
  home_sum : s.home_total = s.home_score.sum
  len_eq : s.away_score.length = s.home_score.length
  len_ge : 9 ≤ s.away_score.length
  inning_pos : 1 ≤ s.inning
  inning_le : s.game_status = .active → s.inning ≤ s.away_score.length

/-- The states observable at the boundary: created by `create_new_game`
(either path) and transformed by `process_pitch`, `process_at_bat`, or
`simulate_game` with arbitrary inputs. -/
inductive Reachable : GameState → Prop where
  | create (gid : String) : Reachable (createNewGame gid)
  | createTeams (gid hT hA aT aA : String) (hL aL : List Batter)
      (hP aP : Pitcher) :
      Reachable (createNewGameWithTeams gid hT hA aT aA hL aL hP aP)
  | pitch (s : GameState) (inp : PitchInput) :
      Reachable s → Reachable (processPitch s inp)
  | atBat (s : GameState) (inp : BatInput) :
      Reachable s → Reachable (processAtBat s inp)
  | sim (s : GameState) (stream : Nat → SimInput) :
      Reachable s → Reachable (simulateGame stream s).state

/-- Concrete states and inputs used to instantiate the theorems. -/
def exRoleSwap : GameState := { emptyState with player_role := .batting }

def exFoulTwoStrikes : GameState := { emptyState with strikes := 2 }

def exBottom9Tied : GameState :=
  { emptyState with is_top := false, inning := 9, player_role := .batting,
                    away_total := 2, home_total := 2,
                    away_score := [2, 0, 0, 0, 0, 0, 0, 0, 0],
                    home_score := [2, 0, 0, 0, 0, 0, 0, 0, 0] }

def lineup9 : List Batter :=
  [⟨"A"⟩, ⟨"B"⟩, ⟨"C"⟩, ⟨"D"⟩, ⟨"E"⟩, ⟨"F"⟩, ⟨"G"⟩, ⟨"H"⟩, ⟨"I"⟩]

def exTopLineup : GameState := { emptyState with away_lineup := some lineup9 }

def exLoaded : GameState := { emptyState with bases := ⟨true, true, true⟩ }

def exPitchInput : PitchInput :=
  { pitchType := "fastball", swings := true, outcome := .foul }

def exBatInput : BatInput :=
  { action := "swing", pitchType := "fastball", outcome := .foul }

def constStream : Nat → SimInput :=
  fun _ => { pitchType := "fastball", swings := true, outcome := .foul }

def exPlayerStats : PlayerStats := { avg := 0.300, slg := 0.500, k_rate := 0.200 }

def exPitcherStats : PitcherStats := { era := 3.50, k_per_9 := 9.0, bb_per_9 := 2.5 }

/- ── Helper lemmas: field effects of the state helpers ─────────────────── -/

lemma getCurrentBatter_fst_eq (s : GameState) :
    ∃ i n, (getCurrentBatter s).1 =
      { s with current_batter_index := i, current_batter_name := n } := by
  unfold getCurrentBatter
  split
  · exact ⟨s.current_batter_index, s.current_batter_name, rfl⟩
  · split
    · exact ⟨s.current_batter_index, s.current_batter_name, rfl⟩
    · exact ⟨_, _, rfl⟩

@[simp] lemma getCurrentBatter_outs (s : GameState) :
    (getCurrentBatter s).1.outs = s.outs := by
  obtain ⟨i, n, h⟩ := getCurrentBatter_fst_eq s; rw [h]

@[simp] lemma getCurrentBatter_balls (s : GameState) :
    (getCurrentBatter s).1.balls = s.balls := by
  obtain ⟨i, n, h⟩ := getCurrentBatter_fst_eq s; rw [h]

@[simp] lemma getCurrentBatter_strikes (s : GameState) :
    (getCurrentBatter s).1.strikes = s.strikes := by
  obtain ⟨i, n, h⟩ := getCurrentBatter_fst_eq s; rw [h]

@[simp] lemma getCurrentBatter_inning (s : GameState) :
    (getCurrentBatter s).1.inning = s.inning := by
  obtain ⟨i, n, h⟩ := getCurrentBatter_fst_eq s; rw [h]

@[simp] lemma getCurrentBatter_is_top (s : GameState) :
    (getCurrentBatter s).1.is_top = s.is_top := by
  obtain ⟨i, n, h⟩ := getCurrentBatter_fst_eq s; rw [h]

@[simp] lemma getCurrentBatter_bases (s : GameState) :
    (getCurrentBatter s).1.bases = s.bases := by
  obtain ⟨i, n, h⟩ := getCurrentBatter_fst_eq s; rw [h]

@[simp] lemma getCurrentBatter_away_score (s : GameState) :
    (getCurrentBatter s).1.away_score = s.away_score := by
  obtain ⟨i, n, h⟩ := getCurrentBatter_fst_eq s; rw [h]

@[simp] lemma getCurrentBatter_home_score (s : GameState) :
    (getCurrentBatter s).1.home_score = s.home_score := by
  obtain ⟨i, n, h⟩ := getCurrentBatter_fst_eq s; rw [h]

@[simp] lemma getCurrentBatter_away_total (s : GameState) :
    (getCurrentBatter s).1.away_total = s.away_total := by
  obtain ⟨i, n, h⟩ := getCurrentBatter_fst_eq s; rw [h]

@[simp] lemma getCurrentBatter_home_total (s : GameState) :
    (getCurrentBatter s).1.home_total = s.home_total := by
  obtain ⟨i, n, h⟩ := getCurrentBatter_fst_eq s; rw [h]

@[simp] lemma getCurrentBatter_player_role (s : GameState) :
    (getCurrentBatter s).1.player_role = s.player_role := by
  obtain ⟨i, n, h⟩ := getCurrentBatter_fst_eq s; rw [h]

@[simp] lemma getCurrentBatter_game_status (s : GameState) :
    (getCurrentBatter s).1.game_status = s.game_status := by
  obtain ⟨i, n, h⟩ := getCurrentBatter_fst_eq s; rw [h]

@[simp] lemma getCurrentBatter_away_batter_idx (s : GameState) :
    (getCurrentBatter s).1.away_batter_idx = s.away_batter_idx := by
  obtain ⟨i, n, h⟩ := getCurrentBatter_fst_eq s; rw [h]

@[simp] lemma getCurrentBatter_home_batter_idx (s : GameState) :
    (getCurrentBatter s).1.home_batter_idx = s.home_batter_idx := by
  obtain ⟨i, n, h⟩ := getCurrentBatter_fst_eq s; rw [h]

@[simp] lemma getCurrentBatter_play_log (s : GameState) :
    (getCurrentBatter s).1.play_log = s.play_log := by
  obtain ⟨i, n, h⟩ := getCurrentBatter_fst_eq s; rw [h]

@[simp] lemma getCurrentBatter_last_play (s : GameState) :
    (getCurrentBatter s).1.last_play = s.last_play := by
  obtain ⟨i, n, h⟩ := getCurrentBatter_fst_eq s; rw [h]

@[simp] lemma getCurrentBatter_away_lineup (s : GameState) :
    (getCurrentBatter s).1.away_lineup = s.away_lineup := by
  obtain ⟨i, n, h⟩ := getCurrentBatter_fst_eq s; rw [h]

@[simp] lemma getCurrentBatter_home_lineup (s : GameState) :
    (getCurrentBatter s).1.home_lineup = s.home_lineup := by
  obtain ⟨i, n, h⟩ := getCurrentBatter_fst_eq s; rw [h]

lemma advanceBatter_eq (s : GameState) :
    ∃ a h, advanceBatter s =
      { s with away_batter_idx := a, home_batter_idx := h } := by
  unfold advanceBatter
  split
  · split
    · exact ⟨s.away_batter_idx, s.home_batter_idx, rfl⟩
    · split
      · exact ⟨s.away_batter_idx, s.home_batter_idx, rfl⟩
      · exact ⟨_, _, rfl⟩
  · split
    · exact ⟨s.away_batter_idx, s.home_batter_idx, rfl⟩
    · split
      · exact ⟨s.away_batter_idx, s.home_batter_idx, rfl⟩
      · exact ⟨_, _, rfl⟩

@[simp] lemma advanceBatter_outs (s : GameState) :
    (advanceBatter s).outs = s.outs := by
  obtain ⟨a, b, h⟩ := advanceBatter_eq s; rw [h]

@[simp] lemma advanceBatter_balls (s : GameState) :
    (advanceBatter s).balls = s.balls := by
  obtain ⟨a, b, h⟩ := advanceBatter_eq s; rw [h]

@[simp] lemma advanceBatter_strikes (s : GameState) :
    (advanceBatter s).strikes = s.strikes := by
  obtain ⟨a, b, h⟩ := advanceBatter_eq s; rw [h]

@[simp] lemma advanceBatter_inning (s : GameState) :
    (advanceBatter s).inning = s.inning := by
  obtain ⟨a, b, h⟩ := advanceBatter_eq s; rw [h]

@[simp] lemma advanceBatter_is_top (s : GameState) :
    (advanceBatter s).is_top = s.is_top := by
  obtain ⟨a, b, h⟩ := advanceBatter_eq s; rw [h]

@[simp] lemma advanceBatter_bases (s : GameState) :
    (advanceBatter s).bases = s.bases := by
  obtain ⟨a, b, h⟩ := advanceBatter_eq s; rw [h]

@[simp] lemma advanceBatter_away_score (s : GameState) :
    (advanceBatter s).away_score = s.away_score := by
  obtain ⟨a, b, h⟩ := advanceBatter_eq s; rw [h]

@[simp] lemma advanceBatter_home_score (s : GameState) :
    (advanceBatter s).home_score = s.home_score := by
  obtain ⟨a, b, h⟩ := advanceBatter_eq s; rw [h]

@[simp] lemma advanceBatter_away_total (s : GameState) :
    (advanceBatter s).away_total = s.away_total := by
  obtain ⟨a, b, h⟩ := advanceBatter_eq s; rw [h]

@[simp] lemma advanceBatter_home_total (s : GameState) :
    (advanceBatter s).home_total = s.home_total := by
  obtain ⟨a, b, h⟩ := advanceBatter_eq s; rw [h]

@[simp] lemma advanceBatter_player_role (s : GameState) :
    (advanceBatter s).player_role = s.player_role := by
  obtain ⟨a, b, h⟩ := advanceBatter_eq s; rw [h]

@[simp] lemma advanceBatter_game_status (s : GameState) :
    (advanceBatter s).game_status = s.game_status := by
  obtain ⟨a, b, h⟩ := advanceBatter_eq s; rw [h]

@[simp] lemma advanceBatter_play_log (s : GameState) :
    (advanceBatter s).play_log = s.play_log := by
  obtain ⟨a, b, h⟩ := advanceBatter_eq s; rw [h]

@[simp] lemma advanceBatter_last_play (s : GameState) :
    (advanceBatter s).last_play = s.last_play := by
  obtain ⟨a, b, h⟩ := advanceBatter_eq s; rw [h]

@[simp] lemma resetCount_balls (s : GameState) : (resetCount s).balls = 0 := rfl

@[simp] lemma resetCount_strikes (s : GameState) :
    (resetCount s).strikes = 0 := rfl

@[simp] lemma resetCount_outs (s : GameState) :
    (resetCount s).outs = s.outs := rfl

@[simp] lemma resetCount_inning (s : GameState) :
    (resetCount s).inning = s.inning := rfl

@[simp] lemma resetCount_is_top (s : GameState) :
    (resetCount s).is_top = s.is_top := rfl

@[simp] lemma resetCount_bases (s : GameState) :
    (resetCount s).bases = s.bases := rfl

@[simp] lemma resetCount_away_score (s : GameState) :
    (resetCount s).away_score = s.away_score := rfl

@[simp] lemma resetCount_home_score (s : GameState) :
    (resetCount s).home_score = s.home_score := rfl

@[simp] lemma resetCount_away_total (s : GameState) :
    (resetCount s).away_total = s.away_total := rfl

@[simp] lemma resetCount_home_total (s : GameState) :
    (resetCount s).home_total = s.home_total := rfl

@[simp] lemma resetCount_player_role (s : GameState) :
    (resetCount s).player_role = s.player_role := rfl

@[simp] lemma resetCount_game_status (s : GameState) :
    (resetCount s).game_status = s.game_status := rfl

@[simp] lemma resetCount_away_batter_idx (s : GameState) :
    (resetCount s).away_batter_idx = s.away_batter_idx := rfl

@[simp] lemma resetCount_home_batter_idx (s : GameState) :
    (resetCount s).home_batter_idx = s.home_batter_idx := rfl

@[simp] lemma resetCount_away_lineup (s : GameState) :
    (resetCount s).away_lineup = s.away_lineup := rfl

@[simp] lemma resetCount_home_lineup (s : GameState) :
    (resetCount s).home_lineup = s.home_lineup := rfl

@[simp] lemma resetCount_play_log (s : GameState) :
    (resetCount s).play_log = s.play_log := rfl

@[simp] lemma resetCount_last_play (s : GameState) :
    (resetCount s).last_play = s.last_play := rfl

@[simp] lemma scoreRuns_game_status (s : GameState) (r : Nat) :
    (scoreRuns s r).game_status = s.game_status := by
  unfold scoreRuns; split; · rfl
  split <;> rfl

@[simp] lemma scoreRuns_inning (s : GameState) (r : Nat) :
    (scoreRuns s r).inning = s.inning := by
  unfold scoreRuns; split; · rfl
  split <;> rfl

@[simp] lemma scoreRuns_is_top (s : GameState) (r : Nat) :
    (scoreRuns s r).is_top = s.is_top := by
  unfold scoreRuns; split; · rfl
  split <;> rfl

@[simp] lemma scoreRuns_outs (s : GameState) (r : Nat) :
    (scoreRuns s r).outs = s.outs := by
  unfold scoreRuns; split; · rfl
  split <;> rfl

@[simp] lemma scoreRuns_balls (s : GameState) (r : Nat) :
    (scoreRuns s r).balls = s.balls := by
  unfold scoreRuns; split; · rfl
  split <;> rfl

@[simp] lemma scoreRuns_strikes (s : GameState) (r : Nat) :
    (scoreRuns s r).strikes = s.strikes := by
  unfold scoreRuns; split; · rfl
  split <;> rfl

@[simp] lemma scoreRuns_bases (s : GameState) (r : Nat) :
    (scoreRuns s r).bases = s.bases := by
  unfold scoreRuns; split; · rfl
  split <;> rfl

@[simp] lemma scoreRuns_player_role (s : GameState) (r : Nat) :
    (scoreRuns s r).player_role = s.player_role := by
  unfold scoreRuns; split; · rfl
  split <;> rfl

@[simp] lemma scoreRuns_away_batter_idx (s : GameState) (r : Nat) :
    (scoreRuns s r).away_batter_idx = s.away_batter_idx := by
  unfold scoreRuns; split; · rfl
  split <;> rfl

@[simp] lemma scoreRuns_home_batter_idx (s : GameState) (r : Nat) :
    (scoreRuns s r).home_batter_idx = s.home_batter_idx := by
  unfold scoreRuns; split; · rfl
  split <;> rfl

@[simp] lemma scoreRuns_away_lineup (s : GameState) (r : Nat) :
    (scoreRuns s r).away_lineup = s.away_lineup := by
  unfold scoreRuns; split; · rfl
  split <;> rfl

@[simp] lemma scoreRuns_home_lineup (s : GameState) (r : Nat) :
    (scoreRuns s r).home_lineup = s.home_lineup := by
  unfold scoreRuns; split; · rfl
  split <;> rfl

@[simp] lemma scoreRuns_play_log (s : GameState) (r : Nat) :
    (scoreRuns s r).play_log = s.play_log := by
  unfold scoreRuns; split; · rfl
  split <;> rfl

@[simp] lemma scoreRuns_last_play (s : GameState) (r : Nat) :
    (scoreRuns s r).last_play = s.last_play := by
  unfold scoreRuns; split; · rfl
  split <;> rfl

@[simp] lemma scoreRuns_away_score_length (s : GameState) (r : Nat) :
    (scoreRuns s r).away_score.length = s.away_score.length := by
  unfold scoreRuns; split; · rfl
  split <;> simp

@[simp] lemma scoreRuns_home_score_length (s : GameState) (r : Nat) :
    (scoreRuns s r).home_score.length = s.home_score.length := by
  unfold scoreRuns; split; · rfl
  split <;> simp

/-- Setting slot `i` of a score list to its value plus `r` adds `r` to the
sum, provided the index is in range. -/
lemma sum_set_getD_add (l : List Nat) (i r : Nat) (h : i < l.length) :
    (l.set i (l[i]?.getD 0 + r)).sum = l.sum + r := by
  induction l generalizing i with
  | nil => simp at h
  | cons a t ih =>
    cases i with
    | zero => simp; omega
    | succ j =>
      have hj : j < t.length := by simpa using h
      have := ih j hj
      simp at this ⊢
      omega

@[simp] lemma endGame_game_status (s : GameState) :
    (endGame s).game_status = .final := rfl

@[simp] lemma endGame_outs (s : GameState) : (endGame s).outs = s.outs := rfl

@[simp] lemma endGame_balls (s : GameState) : (endGame s).balls = s.balls := rfl

@[simp] lemma endGame_strikes (s : GameState) :
    (endGame s).strikes = s.strikes := rfl

@[simp] lemma endGame_inning (s : GameState) :
    (endGame s).inning = s.inning := rfl

@[simp] lemma endGame_is_top (s : GameState) :
    (endGame s).is_top = s.is_top := rfl

@[simp] lemma endGame_bases (s : GameState) :
    (endGame s).bases = s.bases := rfl

@[simp] lemma endGame_away_score (s : GameState) :
    (endGame s).away_score = s.away_score := rfl

@[simp] lemma endGame_home_score (s : GameState) :
    (endGame s).home_score = s.home_score := rfl

@[simp] lemma endGame_away_total (s : GameState) :
    (endGame s).away_total = s.away_total := rfl

@[simp] lemma endGame_home_total (s : GameState) :
    (endGame s).home_total = s.home_total := rfl

@[simp] lemma endGame_player_role (s : GameState) :
    (endGame s).player_role = s.player_role := rfl

@[simp] lemma walk_game_status (s : GameState) :
    (walk s).game_status = s.game_status := by
  simp [walk]

@[simp] lemma walk_outs (s : GameState) : (walk s).outs = s.outs := by
  simp [walk]

@[simp] lemma walk_balls (s : GameState) : (walk s).balls = 0 := by
  simp [walk]

@[simp] lemma walk_strikes (s : GameState) : (walk s).strikes = 0 := by
  simp [walk]

@[simp] lemma walk_inning (s : GameState) : (walk s).inning = s.inning := by
  simp [walk]

@[simp] lemma walk_is_top (s : GameState) : (walk s).is_top = s.is_top := by
  simp [walk]

@[simp] lemma recordHit_game_status (s : GameState) (ht : Outcome) :
    (recordHit s ht).game_status = s.game_status := by
  simp only [recordHit]
  split <;> simp

@[simp] lemma recordHit_outs (s : GameState) (ht : Outcome) :
    (recordHit s ht).outs = s.outs := by
  simp only [recordHit]
  split <;> simp

@[simp] lemma recordHit_balls (s : GameState) (ht : Outcome) :
    (recordHit s ht).balls = 0 := by
  simp only [recordHit]
  split <;> simp

@[simp] lemma recordHit_strikes (s : GameState) (ht : Outcome) :
    (recordHit s ht).strikes = 0 := by
  simp only [recordHit]
  split <;> simp

/-- `_end_half_inning`, top half, game over (walk-off). -/
lemma endHalfInning_top_walkoff {s : GameState} (ht : s.is_top = true)
    (h9 : 9 ≤ s.inning) (hlead : s.away_total < s.home_total) :
    endHalfInning s = endGame
      { s with outs := 0, bases := ⟨false, false, false⟩, balls := 0,
               strikes := 0, is_top := false, player_role := .batting } := by
  simp [endHalfInning, resetCount, TOTAL_INNINGS, ht, h9, hlead]

/-- `_end_half_inning`, top half, game continues into the bottom half. -/
lemma endHalfInning_top_cont {s : GameState} (ht : s.is_top = true)
    (h : ¬(9 ≤ s.inning ∧ s.away_total < s.home_total)) :
    endHalfInning s =
      (let t := (getCurrentBatter
        { s with outs := 0, bases := ⟨false, false, false⟩, balls := 0,
                 strikes := 0, is_top := false, player_role := .batting }).1
       { t with
          play_log := t.play_log ++
            ["--- " ++ ("Bottom of inning " ++ toString s.inning) ++ " ---"],
          last_play :=
            "--- " ++ ("Bottom of inning " ++ toString s.inning) ++ " ---" }) := by
  simp [endHalfInning, resetCount, TOTAL_INNINGS, ht, h]

/-- `_end_half_inning`, bottom half, game over (complete inning 9+ with
unequal totals). -/
lemma endHalfInning_bottom_end {s : GameState} (ht : s.is_top = false)
    (h9 : 9 < s.inning + 1) (hne : s.home_total ≠ s.away_total) :
    endHalfInning s = endGame
      { s with outs := 0, bases := ⟨false, false, false⟩, balls := 0,
               strikes := 0, inning := s.inning + 1, is_top := true,
               player_role := .pitching } := by
  simp [endHalfInning, resetCount, TOTAL_INNINGS, ht, h9, hne]

/-- `_end_half_inning`, bottom half, game continues into the next inning
(appending a fresh score slot when needed). -/
lemma endHalfInning_bottom_cont {s : GameState} (ht : s.is_top = false)
    (h : ¬(9 < s.inning + 1 ∧ s.home_total ≠ s.away_total)) :
    endHalfInning s =
      (let u := if s.away_score.length < s.inning + 1 then
          { s with outs := 0, bases := ⟨false, false, false⟩, balls := 0,
                   strikes := 0, inning := s.inning + 1, is_top := true,
                   player_role := .pitching,
                   away_score := s.away_score ++ [0],
                   home_score := s.home_score ++ [0] }
        else
          { s with outs := 0, bases := ⟨false, false, false⟩, balls := 0,
                   strikes := 0, inning := s.inning + 1, is_top := true,
                   player_role := .pitching }
       let t := (getCurrentBatter u).1
       { t with
          play_log := t.play_log ++
            ["--- " ++ ("Top of inning " ++ toString (s.inning + 1)) ++ " ---"],
          last_play :=
            "--- " ++ ("Top of inning " ++ toString (s.inning + 1)) ++ " ---" }) := by
  by_cases hx : s.away_score.length < s.inning + 1 <;>
    simp [endHalfInning, resetCount, TOTAL_INNINGS, ht, h, hx]

/-- `_end_half_inning` restores the invariant (count bounds need not hold on
entry: outs and the count are reset first). -/
lemma inv_endHalfInning {s : GameState}
    (haway : s.away_total = s.away_score.sum)
    (hhome : s.home_total = s.home_score.sum)
    (hlen : s.away_score.length = s.home_score.length)
    (hge : 9 ≤ s.away_score.length)
    (hpos : 1 ≤ s.inning)
    (hle : s.inning ≤ s.away_score.length) :
    Inv (endHalfInning s) := by
  have hgeh : 9 ≤ s.home_score.length := hlen ▸ hge
  have hleh : s.inning ≤ s.home_score.length := hlen ▸ hle
  by_cases ht : s.is_top = true
  · by_cases hc : 9 ≤ s.inning ∧ s.away_total < s.home_total
    · rw [endHalfInning_top_walkoff ht hc.1 hc.2]
      constructor <;> simp [haway, hhome, hlen, hge, hgeh, hpos]
    · rw [endHalfInning_top_cont ht hc]
      constructor <;> simp [haway, hhome, hlen, hge, hgeh, hpos, hle, hleh]
  · have ht2 : s.is_top = false := by simpa using ht
    by_cases hc : 9 < s.inning + 1 ∧ s.home_total ≠ s.away_total
    · rw [endHalfInning_bottom_end ht2 hc.1 hc.2]
      constructor <;> simp [haway, hhome, hlen, hge, hgeh, hpos]
    · rw [endHalfInning_bottom_cont ht2 hc]
      by_cases hx : s.away_score.length < s.inning + 1
      · have hle2 : s.inning + 1 ≤ s.away_score.length + 1 := by omega
        constructor <;> simp [hx, haway, hhome, hge, hpos, hle2] <;> omega
      · have hhx : s.inning + 1 ≤ s.away_score.length := by omega
        constructor <;> simp [hx, haway, hhome, hpos, hhx] <;> omega

lemma Inv.score {s : GameState} (h : Inv s) : ScoreInv s :=
  ⟨h.away_sum, h.home_sum, h.len_eq, h.len_ge, h.inning_pos, h.inning_le⟩

lemma inv_of_score {s : GameState} (hsc : ScoreInv s) (h1 : s.outs ≤ 2)
    (h2 : s.balls ≤ 3) (h3 : s.strikes ≤ 2) : Inv s :=
  ⟨h1, h2, h3, hsc.away_sum, hsc.home_sum, hsc.len_eq, hsc.len_ge,
   hsc.inning_pos, hsc.inning_le⟩

lemma scoreInv_mono {s t : GameState} (hsc : ScoreInv s)
    (hat : t.away_total = s.away_total) (hht : t.home_total = s.home_total)
    (has : t.away_score = s.away_score) (hhs : t.home_score = s.home_score)
    (hin : t.inning = s.inning) (hst : t.game_status = s.game_status) :
    ScoreInv t := by
  constructor
  · rw [hat, has]; exact hsc.away_sum
  · rw [hht, hhs]; exact hsc.home_sum
  · rw [has, hhs]; exact hsc.len_eq
  · rw [has]; exact hsc.len_ge
  · rw [hin]; exact hsc.inning_pos
  · rw [hst, hin, has]; exact hsc.inning_le

lemma inv_mono {s t : GameState} (h : Inv s)
    (houts : t.outs = s.outs) (hballs : t.balls = s.balls)
    (hstr : t.strikes = s.strikes)
    (hat : t.away_total = s.away_total) (hht : t.home_total = s.home_total)
    (has : t.away_score = s.away_score) (hhs : t.home_score = s.home_score)
    (hin : t.inning = s.inning) (hst : t.game_status = s.game_status) :
    Inv t := by
  refine inv_of_score (scoreInv_mono h.score hat hht has hhs hin hst) ?_ ?_ ?_
  · rw [houts]; exact h.outs_le
  · rw [hballs]; exact h.balls_le
  · rw [hstr]; exact h.strikes_le

lemma scoreInv_getCurrentBatter {s : GameState} (hsc : ScoreInv s) :
    ScoreInv (getCurrentBatter s).1 :=
  scoreInv_mono hsc (by simp) (by simp) (by simp) (by simp) (by simp) (by simp)

lemma scoreInv_advanceBatter {s : GameState} (hsc : ScoreInv s) :
    ScoreInv (advanceBatter s) :=
  scoreInv_mono hsc (by simp) (by simp) (by simp) (by simp) (by simp) (by simp)

lemma scoreInv_resetCount {s : GameState} (hsc : ScoreInv s) :
    ScoreInv (resetCount s) :=
  scoreInv_mono hsc rfl rfl rfl rfl rfl rfl

lemma inv_getCurrentBatter {s : GameState} (h : Inv s) :
    Inv (getCurrentBatter s).1 := by
  refine inv_of_score (scoreInv_getCurrentBatter h.score) ?_ ?_ ?_ <;> simp
  · exact h.outs_le
  · exact h.balls_le
  · exact h.strikes_le

lemma scoreInv_scoreRuns {s : GameState} (r : Nat) (hsc : ScoreInv s)
    (ha : s.game_status = .active) : ScoreInv (scoreRuns s r) := by
  have hle := hsc.inning_le ha
  have hpos := hsc.inning_pos
  have hge := hsc.len_ge
  have hlen := hsc.len_eq
  have hidx : s.inning - 1 < s.away_score.length := by omega
  have hidxh : s.inning - 1 < s.home_score.length := by omega
  have hgeh : 9 ≤ s.home_score.length := by omega
  have hleh : s.inning ≤ s.home_score.length := by omega
  have hA := sum_set_getD_add s.away_score (s.inning - 1) r hidx
  have hH := sum_set_getD_add s.home_score (s.inning - 1) r hidxh
  unfold scoreRuns
  split
  · exact hsc
  · split
    · constructor <;>
        simp [hsc.away_sum, hsc.home_sum, hsc.len_eq, hge, hgeh,
              hpos, hle, hleh, hA]
    · constructor <;>
        simp [hsc.away_sum, hsc.home_sum, hsc.len_eq, hge, hgeh,
              hpos, hle, hleh, hH]

/-- `_walk` restores the invariant; the ball count on entry may be 4. -/
lemma inv_walk {s : GameState} (hsc : ScoreInv s) (houts : s.outs ≤ 2)
    (ha : s.game_status = .active) : Inv (walk s) := by
  refine inv_of_score ?_ ?_ ?_ ?_
  · exact scoreInv_getCurrentBatter (scoreInv_advanceBatter
      (scoreInv_resetCount (scoreInv_scoreRuns _
        (scoreInv_mono hsc rfl rfl rfl rfl rfl rfl) ha)))
  · rw [walk_outs]; exact houts
  · simp
  · simp

/-- `_record_hit` restores the invariant. -/
lemma inv_recordHit {s : GameState} (hitType : Outcome) (hsc : ScoreInv s)
    (houts : s.outs ≤ 2) (ha : s.game_status = .active) :
    Inv (recordHit s hitType) := by
  have h2 : Inv ((getCurrentBatter (advanceBatter (resetCount (scoreRuns
      { s with bases := (advanceRunnersHit s.bases hitType).1 }
      (advanceRunnersHit s.bases hitType).2)))).1) := by
    refine inv_of_score ?_ ?_ ?_ ?_
    · exact scoreInv_getCurrentBatter (scoreInv_advanceBatter
        (scoreInv_resetCount (scoreInv_scoreRuns _
          (scoreInv_mono hsc rfl rfl rfl rfl rfl rfl) ha)))
    · simpa using houts
    · simp
    · simp
  simp only [recordHit]
  split
  · exact inv_mono h2 rfl rfl rfl rfl rfl rfl rfl rfl rfl
  · exact h2

lemma recordOut_lt (s : GameState) (d : String) (h : ¬ 3 ≤ s.outs + 1) :
    recordOut s d = (getCurrentBatter (advanceBatter (resetCount
      { s with play_log := s.play_log ++ [d], last_play := d,
               outs := s.outs + 1 }))).1 := by
  simp [recordOut, h]

lemma recordOut_ge (s : GameState) (d : String) (h : 3 ≤ s.outs + 1) :
    recordOut s d = endHalfInning (advanceBatter (resetCount
      { s with play_log := s.play_log ++ [d], last_play := d,
               outs := s.outs + 1 })) := by
  simp [recordOut, h]

lemma recordOut_game_status_lt (s : GameState) (d : String)
    (h : ¬ 3 ≤ s.outs + 1) : (recordOut s d).game_status = s.game_status := by
  rw [recordOut_lt s d h]; simp

/-- `inv_endHalfInning` repackaged over `ScoreInv`. -/
lemma inv_endHalfInning_score {s : GameState} (hsc : ScoreInv s)
    (ha : s.game_status = .active) : Inv (endHalfInning s) :=
  inv_endHalfInning hsc.away_sum hsc.home_sum hsc.len_eq hsc.len_ge
    hsc.inning_pos (hsc.inning_le ha)

/-- `_record_out` restores the invariant (the strike count on entry may be
3, e.g. on a strikeout). -/
lemma inv_recordOut {s : GameState} (d : String) (hsc : ScoreInv s)
    (ha : s.game_status = .active) : Inv (recordOut s d) := by
  by_cases hc : 3 ≤ s.outs + 1
  · rw [recordOut_ge s d hc]
    refine inv_endHalfInning_score ?_ ?_
    · exact scoreInv_advanceBatter (scoreInv_resetCount
        (scoreInv_mono hsc rfl rfl rfl rfl rfl rfl))
    · simpa using ha
  · rw [recordOut_lt s d hc]
    refine inv_of_score ?_ ?_ ?_ ?_
    · exact scoreInv_getCurrentBatter (scoreInv_advanceBatter
        (scoreInv_resetCount (scoreInv_mono hsc rfl rfl rfl rfl rfl rfl)))
    · simp; omega
    · simp
    · simp

/-- `_apply_outcome` preserves the invariant on an active game. -/
lemma inv_applyOutcome {s : GameState} (o : Outcome) (msg : String)
    (h : Inv s) (ha : s.game_status = .active) :
    Inv (applyOutcome s o msg) := by
  have hsc1 : ScoreInv
      { s with play_log := s.play_log ++ [msg], last_play := msg } :=
    scoreInv_mono h.score rfl rfl rfl rfl rfl rfl
  cases o <;> simp only [applyOutcome]
  case ball =>
    split
    · exact inv_walk (scoreInv_mono hsc1 rfl rfl rfl rfl rfl rfl) h.outs_le ha
    case isFalse hb =>
      refine inv_of_score (scoreInv_mono hsc1 rfl rfl rfl rfl rfl rfl)
        h.outs_le ?_ h.strikes_le
      simp at hb ⊢
      omega
  case strike_looking =>
    split
    · exact inv_recordOut _ (scoreInv_mono hsc1 rfl rfl rfl rfl rfl rfl) ha
    case isFalse hb =>
      refine inv_of_score (scoreInv_mono hsc1 rfl rfl rfl rfl rfl rfl)
        h.outs_le h.balls_le ?_
      simp at hb ⊢
      omega
  case strike_swinging =>
    split
    · exact inv_recordOut _ (scoreInv_mono hsc1 rfl rfl rfl rfl rfl rfl) ha
    case isFalse hb =>
      refine inv_of_score (scoreInv_mono hsc1 rfl rfl rfl rfl rfl rfl)
        h.outs_le h.balls_le ?_
      simp at hb ⊢
      omega
  case foul =>
    split
    case isTrue hb =>
      refine inv_of_score (scoreInv_mono hsc1 rfl rfl rfl rfl rfl rfl)
        h.outs_le h.balls_le ?_
      simp at hb ⊢
      omega
    · exact inv_of_score hsc1 h.outs_le h.balls_le h.strikes_le
  case groundout => exact inv_recordOut _ hsc1 ha
  case flyout => exact inv_recordOut _ hsc1 ha
  case lineout => exact inv_recordOut _ hsc1 ha
  case single => exact inv_recordHit _ hsc1 h.outs_le ha
  case double => exact inv_recordHit _ hsc1 h.outs_le ha
  case triple => exact inv_recordHit _ hsc1 h.outs_le ha
  case homerun => exact inv_recordHit _ hsc1 h.outs_le ha

/-- `process_pitch` preserves the invariant. -/
lemma inv_processPitch {s : GameState} (inp : PitchInput) (h : Inv s) :
    Inv (processPitch s inp) := by
  unfold processPitch
  split
  · exact h
  case isFalse hact =>
    have ha : s.game_status = .active := by
      cases hst : s.game_status
      · rfl
      · exact absurd (by simp [hst]) hact
    split
    · exact inv_mono h rfl rfl rfl rfl rfl rfl rfl rfl rfl
    · exact inv_applyOutcome _ _ (inv_getCurrentBatter h) (by simpa using ha)

/-- `process_at_bat` preserves the invariant. -/
lemma inv_processAtBat {s : GameState} (inp : BatInput) (h : Inv s) :
    Inv (processAtBat s inp) := by
  unfold processAtBat
  split
  · exact h
  case isFalse hact =>
    have ha : s.game_status = .active := by
      cases hst : s.game_status
      · rfl
      · exact absurd (by simp [hst]) hact
    split
    · exact inv_mono h rfl rfl rfl rfl rfl rfl rfl rfl rfl
    · exact inv_applyOutcome _ _ (inv_getCurrentBatter h) (by simpa using ha)

/-- One simulated play preserves the invariant. -/
lemma inv_simStep {s : GameState} (inp : SimInput) (h : Inv s)
    (ha : s.game_status = .active) : Inv (simStep s inp) := by
  unfold simStep
  split <;>
    exact inv_applyOutcome _ _ (inv_getCurrentBatter h) (by simpa using ha)

lemma inv_simulateLoop (stream : Nat → SimInput) (iter fuel : Nat)
    {s : GameState} (h : Inv s) :
    Inv (simulateLoop stream iter fuel s).1 := by
  induction fuel generalizing s iter with
  | zero => exact h
  | succ f ih =>
    unfold simulateLoop
    split
    case isTrue ha => exact ih _ (inv_simStep _ h ha)
    · exact h

/-- `simulate_game` preserves the invariant. -/
lemma inv_simulateGame (stream : Nat → SimInput) {s : GameState}
    (h : Inv s) : Inv (simulateGame stream s).state := by
  unfold simulateGame
  split
  · exact inv_simulateLoop stream 0 500 h
  · exact h

/-- A freshly created (fallback) game satisfies the invariant. -/
lemma inv_createNewGame (gid : String) : Inv (createNewGame gid) := by
  constructor <;> simp [createNewGame, emptyState, TOTAL_INNINGS]

/-- A freshly created game with team data satisfies the invariant. -/
lemma inv_createNewGameWithTeams (gid hT hA aT aA : String)
    (hL aL : List Batter) (hP aP : Pitcher) :
    Inv (createNewGameWithTeams gid hT hA aT aA hL aL hP aP) := by
  constructor <;> simp [createNewGameWithTeams, emptyState, TOTAL_INNINGS]

/-- Every state observable at the boundary satisfies the invariant. -/
lemma reachable_inv {s : GameState} (h : Reachable s) : Inv s := by
  induction h with
  | create gid => exact inv_createNewGame gid
  | createTeams gid hT hA aT aA hL aL hP aP =>
    exact inv_createNewGameWithTeams gid hT hA aT aA hL aL hP aP
  | pitch s inp _ ih => exact inv_processPitch inp ih
  | atBat s inp _ ih => exact inv_processAtBat inp ih
  | sim s stream _ ih => exact inv_simulateGame stream ih

/- ── Monotonicity of game_status at the boundary ───────────────────────── -/

lemma processPitch_final {s : GameState} (inp : PitchInput)
    (hf : s.game_status = .final) : processPitch s inp = s := by
  simp [processPitch, hf]

lemma processAtBat_final {s : GameState} (inp : BatInput)
    (hf : s.game_status = .final) : processAtBat s inp = s := by
  simp [processAtBat, hf]

lemma simulateGame_final {s : GameState} (stream : Nat → SimInput)
    (hf : s.game_status = .final) : (simulateGame stream s).state = s := by
  simp [simulateGame, hf]

/- ── C2 ───────────────────────────────────────────────────────────────── -/

/-- C2: every state observable after a boundary operation (game creation,
`process_pitch`, `process_at_bat`, `simulate_game`) has `outs ≤ 2`,
`balls ≤ 3`, `strikes ≤ 2`, and totals equal to the sums of the per-inning
score lists; and `game_status` only moves from active to final, never back
(a final game is left final by every boundary operation). -/
theorem boundary_state_invariants (s : GameState) (h : Reachable s) :
    s.outs ≤ 2 ∧ s.balls ≤ 3 ∧ s.strikes ≤ 2 ∧
    s.away_total = s.away_score.sum ∧ s.home_total = s.home_score.sum ∧
    (s.game_status = .final →
      (∀ inp : PitchInput, (processPitch s inp).game_status = .final) ∧
      (∀ inp : BatInput, (processAtBat s inp).game_status = .final) ∧
      (∀ stream : Nat → SimInput,
        (simulateGame stream s).state.game_status = .final)) := by
  have hi := reachable_inv h
  refine ⟨hi.outs_le, hi.balls_le, hi.strikes_le, hi.away_sum, hi.home_sum,
    fun hf => ⟨fun inp => ?_, fun inp => ?_, fun stream => ?_⟩⟩
  · rw [processPitch_final inp hf]; exact hf
  · rw [processAtBat_final inp hf]; exact hf
  · rw [simulateGame_final stream hf]; exact hf

theorem boundary_state_invariants_witness :
    (createNewGame "g").outs ≤ 2 ∧ (createNewGame "g").balls ≤ 3 ∧
    (createNewGame "g").strikes ≤ 2 ∧
    (createNewGame "g").away_total = (createNewGame "g").away_score.sum ∧
    (createNewGame "g").home_total = (createNewGame "g").home_score.sum ∧
    ((createNewGame "g").game_status = .final →
      (∀ inp : PitchInput,
        (processPitch (createNewGame "g") inp).game_status = .final) ∧
      (∀ inp : BatInput,
        (processAtBat (createNewGame "g") inp).game_status = .final) ∧
      (∀ stream : Nat → SimInput,
        (simulateGame stream (createNewGame "g")).state.game_status = .final)) :=
  boundary_state_invariants (createNewGame "g") (Reachable.create "g")

/- ── C10 ──────────────────────────────────────────────────────────────── -/

/-- C10: in every reachable active state the two per-inning score lists have
equal length, at least 9 and at least the inning number, so the index
`inning - 1` used by `_score_runs` is in range for both lists (the
out-of-range branch is unreachable, extra innings included). -/
theorem score_index_in_bounds (s : GameState) (h : Reachable s)
    (ha : s.game_status = .active) :
    s.away_score.length = s.home_score.length ∧
    9 ≤ s.away_score.length ∧
    s.inning ≤ s.away_score.length ∧
    s.inning - 1 < s.away_score.length ∧
    s.inning - 1 < s.home_score.length := by
  have hi := reachable_inv h
  have h1 := hi.inning_le ha
  have h2 := hi.inning_pos
  have h3 := hi.len_eq
  have h4 := hi.len_ge
  exact ⟨h3, h4, h1, by omega, by omega⟩

theorem score_index_in_bounds_witness :
    (createNewGame "w").away_score.length =
      (createNewGame "w").home_score.length ∧
    9 ≤ (createNewGame "w").away_score.length ∧
    (createNewGame "w").inning ≤ (createNewGame "w").away_score.length ∧
    (createNewGame "w").inning - 1 < (createNewGame "w").away_score.length ∧
    (createNewGame "w").inning - 1 < (createNewGame "w").home_score.length :=
  score_index_in_bounds (createNewGame "w") (Reachable.create "w") rfl

/- ── C1 ───────────────────────────────────────────────────────────────── -/

/-- C1: game-end detection at half-inning transitions. Ending the TOP half
with inning ≥ 9 and the home team ahead makes the game FINAL at once (the
bottom half is not played); ending the BOTTOM half of an inning ≥ 9 makes
the game FINAL exactly when the totals differ; with equal totals play
continues into the next inning, and one zero slot is appended to each score
list exactly when the new inning number exceeds their current length. -/
theorem end_half_inning_transitions (s : GameState)
    (hact : s.game_status = .active) :
    (s.is_top = true → 9 ≤ s.inning → s.away_total < s.home_total →
      (endHalfInning s).game_status = .final ∧
      (endHalfInning s).is_top = false) ∧
    (s.is_top = false → 9 ≤ s.inning →
      ((endHalfInning s).game_status = .final ↔
        s.home_total ≠ s.away_total)) ∧
    (s.is_top = false → s.home_total = s.away_total →
      (endHalfInning s).game_status = .active ∧
      (endHalfInning s).inning = s.inning + 1 ∧
      (endHalfInning s).away_score.length =
        (if s.away_score.length < s.inning + 1 then s.away_score.length + 1
         else s.away_score.length) ∧
      (endHalfInning s).home_score.length =
        (if s.away_score.length < s.inning + 1 then s.home_score.length + 1
         else s.home_score.length)) := by
  refine ⟨?_, ?_, ?_⟩
  · intro ht h9 hlt
    rw [endHalfInning_top_walkoff ht h9 hlt]
    constructor <;> simp
  · intro ht h9
    constructor
    · intro hf
      by_cases heq : s.home_total = s.away_total
      · exfalso
        have hc : ¬(9 < s.inning + 1 ∧ s.home_total ≠ s.away_total) := by
          simp [heq]
        rw [endHalfInning_bottom_cont ht hc] at hf
        by_cases hx : s.away_score.length < s.inning + 1 <;>
          simp [hx, hact] at hf
      · exact heq
    · intro hne
      rw [endHalfInning_bottom_end ht (by omega) hne]
      simp
  · intro ht heq
    have hc : ¬(9 < s.inning + 1 ∧ s.home_total ≠ s.away_total) := by
      simp [heq]
    rw [endHalfInning_bottom_cont ht hc]
    by_cases hx : s.away_score.length < s.inning + 1 <;>
      simp [hx, hact]

theorem end_half_inning_transitions_witness :
    (exBottom9Tied.is_top = true → 9 ≤ exBottom9Tied.inning →
      exBottom9Tied.away_total < exBottom9Tied.home_total →
      (endHalfInning exBottom9Tied).game_status = .final ∧
      (endHalfInning exBottom9Tied).is_top = false) ∧
    (exBottom9Tied.is_top = false → 9 ≤ exBottom9Tied.inning →
      ((endHalfInning exBottom9Tied).game_status = .final ↔
        exBottom9Tied.home_total ≠ exBottom9Tied.away_total)) ∧
    (exBottom9Tied.is_top = false →
      exBottom9Tied.home_total = exBottom9Tied.away_total →
      (endHalfInning exBottom9Tied).game_status = .active ∧
      (endHalfInning exBottom9Tied).inning = exBottom9Tied.inning + 1 ∧
      (endHalfInning exBottom9Tied).away_score.length =
        (if exBottom9Tied.away_score.length < exBottom9Tied.inning + 1 then
          exBottom9Tied.away_score.length + 1
         else exBottom9Tied.away_score.length) ∧
      (endHalfInning exBottom9Tied).home_score.length =
        (if exBottom9Tied.away_score.length < exBottom9Tied.inning + 1 then
          exBottom9Tied.home_score.length + 1
         else exBottom9Tied.home_score.length)) :=
  end_half_inning_transitions exBottom9Tied rfl

/- ── C4 ───────────────────────────────────────────────────────────────── -/

lemma walk_idx_top {s : GameState} {l : List Batter} (ht : s.is_top = true)
    (hl : s.away_lineup = some l) (h0 : l.length ≠ 0) :
    (walk s).away_batter_idx = (s.away_batter_idx + 1) % l.length ∧
    (walk s).home_batter_idx = s.home_batter_idx := by
  constructor <;> simp [walk, advanceBatter, ht, hl, h0]

lemma walk_idx_bottom {s : GameState} {l : List Batter}
    (ht : s.is_top = false) (hl : s.home_lineup = some l)
    (h0 : l.length ≠ 0) :
    (walk s).home_batter_idx = (s.home_batter_idx + 1) % l.length ∧
    (walk s).away_batter_idx = s.away_batter_idx := by
  constructor <;> simp [walk, advanceBatter, ht, hl, h0]

/-- C4: a walk advances only forced runners (the batter always takes first;
first moves up only when occupied; a runner on third scores exactly when
the bases are loaded, and a non-loaded configuration scores 0 — in
particular a lone runner on third stays put); afterwards the count is 0-0
and the batting team lineup index advances by exactly one mod 9. -/
theorem walk_forced_advancement (s : GameState) :
    (∀ b : Bases, advanceRunnersWalk b =
      (⟨true, b.first || b.second, b.third || (b.first && b.second)⟩,
       if b.first && b.second && b.third then 1 else 0)) ∧
    advanceRunnersWalk ⟨true, true, true⟩ = (⟨true, true, true⟩, 1) ∧
    (∀ b : Bases, ¬(b.first = true ∧ b.second = true ∧ b.third = true) →
      (advanceRunnersWalk b).2 = 0) ∧
    (∀ b : Bases, b.first = false → (advanceRunnersWalk b).1.third = b.third) ∧
    (walk s).balls = 0 ∧ (walk s).strikes = 0 ∧
    (∀ l : List Batter, s.is_top = true → s.away_lineup = some l →
      l.length = 9 →
      (walk s).away_batter_idx = (s.away_batter_idx + 1) % 9 ∧
      (walk s).home_batter_idx = s.home_batter_idx) ∧
    (∀ l : List Batter, s.is_top = false → s.home_lineup = some l →
      l.length = 9 →
      (walk s).home_batter_idx = (s.home_batter_idx + 1) % 9 ∧
      (walk s).away_batter_idx = s.away_batter_idx) := by
  refine ⟨?_, by decide, ?_, ?_, by simp, by simp, ?_, ?_⟩
  · rintro ⟨f, sn, t⟩
    cases f <;> cases sn <;> cases t <;> rfl
  · rintro ⟨f, sn, t⟩ h
    revert h
    cases f <;> cases sn <;> cases t <;> decide
  · rintro ⟨f, sn, t⟩ h
    revert h
    cases f <;> cases sn <;> cases t <;> decide
  · intro l ht hl hlen
    have h0 : l.length ≠ 0 := by omega
    have hw := walk_idx_top ht hl h0
    rw [hlen] at hw
    exact hw
  · intro l ht hl hlen
    have h0 : l.length ≠ 0 := by omega
    have hw := walk_idx_bottom ht hl h0
    rw [hlen] at hw
    exact hw

theorem walk_forced_advancement_witness :
    advanceRunnersWalk ⟨true, true, true⟩ = (⟨true, true, true⟩, 1) ∧
    (walk exTopLineup).balls = 0 ∧
    (walk exTopLineup).away_batter_idx =
      (exTopLineup.away_batter_idx + 1) % 9 :=
  ⟨(walk_forced_advancement exTopLineup).2.1,
   (walk_forced_advancement exTopLineup).2.2.2.2.1,
   ((walk_forced_advancement exTopLineup).2.2.2.2.2.2.1 lineup9 rfl rfl
     rfl).1⟩

/- ── C5 ───────────────────────────────────────────────────────────────── -/

lemma getD_set_self (l : List Nat) (i v : Nat) (h : i < l.length) :
    (l.set i v)[i]?.getD 0 = v := by
  induction l generalizing i with
  | nil => simp at h
  | cons a t ih =>
    cases i with
    | zero => simp
    | succ j =>
      have hj : j < t.length := by simpa using h
      simpa using ih j hj

lemma scoreRuns_away_total_top {x : GameState} (r : Nat)
    (hx : x.is_top = true) :
    (scoreRuns x r).away_total = x.away_total + r := by
  unfold scoreRuns
  split_ifs with h0
  · simp [h0]
  · simp

lemma scoreRuns_home_total_bottom {x : GameState} (r : Nat)
    (hx : x.is_top = false) :
    (scoreRuns x r).home_total = x.home_total + r := by
  unfold scoreRuns
  split_ifs with h0 h1
  · simp [h0]
  · simp [hx] at h1
  · simp

lemma scoreRuns_away_slot_top {x : GameState} (r : Nat)
    (hx : x.is_top = true) (hidx : x.inning - 1 < x.away_score.length) :
    (scoreRuns x r).away_score[x.inning - 1]?.getD 0 =
      x.away_score[x.inning - 1]?.getD 0 + r := by
  unfold scoreRuns
  split_ifs with h0
  · simp [h0]
  · rw [show (({ x with
        away_score := x.away_score.set (x.inning - 1)
          (x.away_score.getD (x.inning - 1) 0 + r),
        away_total := x.away_total + r } : GameState).away_score) =
        x.away_score.set (x.inning - 1)
          (x.away_score.getD (x.inning - 1) 0 + r) from rfl]
    rw [getD_set_self _ _ _ hidx]
    simp [List.getD, List.get?_eq_getElem?]

lemma scoreRuns_home_slot_bottom {x : GameState} (r : Nat)
    (hx : x.is_top = false) (hidx : x.inning - 1 < x.home_score.length) :
    (scoreRuns x r).home_score[x.inning - 1]?.getD 0 =
      x.home_score[x.inning - 1]?.getD 0 + r := by
  unfold scoreRuns
  split_ifs with h0 h1
  · simp [h0]
  · simp [hx] at h1
  · rw [show (({ x with
        home_score := x.home_score.set (x.inning - 1)
          (x.home_score.getD (x.inning - 1) 0 + r),
        home_total := x.home_total + r } : GameState).home_score) =
        x.home_score.set (x.inning - 1)
          (x.home_score.getD (x.inning - 1) 0 + r) from rfl]
    rw [getD_set_self _ _ _ hidx]
    simp [List.getD, List.get?_eq_getElem?]

lemma recordHit_away_total {s : GameState} (hT : Outcome)
    (ht : s.is_top = true) :
    (recordHit s hT).away_total =
      s.away_total + (advanceRunnersHit s.bases hT).2 := by
  simp only [recordHit]
  split <;> simp [scoreRuns_away_total_top, ht]

lemma recordHit_home_total {s : GameState} (hT : Outcome)
    (ht : s.is_top = false) :
    (recordHit s hT).home_total =
      s.home_total + (advanceRunnersHit s.bases hT).2 := by
  simp only [recordHit]
  split <;> simp [scoreRuns_home_total_bottom, ht]

lemma recordHit_away_slot {s : GameState} (hT : Outcome)
    (ht : s.is_top = true) (hidx : s.inning - 1 < s.away_score.length) :
    (recordHit s hT).away_score[s.inning - 1]?.getD 0 =
      s.away_score[s.inning - 1]?.getD 0 +
        (advanceRunnersHit s.bases hT).2 := by
  simp only [recordHit]
  split <;>
  · simp only [getCurrentBatter_away_score, advanceBatter_away_score,
      resetCount_away_score]
    exact scoreRuns_away_slot_top _ ht hidx

lemma recordHit_home_slot {s : GameState} (hT : Outcome)
    (ht : s.is_top = false) (hidx : s.inning - 1 < s.home_score.length) :
    (recordHit s hT).home_score[s.inning - 1]?.getD 0 =
      s.home_score[s.inning - 1]?.getD 0 +
        (advanceRunnersHit s.bases hT).2 := by
  simp only [recordHit]
  split <;>
  · simp only [getCurrentBatter_home_score, advanceBatter_home_score,
      resetCount_home_score]
    exact scoreRuns_home_slot_bottom _ ht hidx

/-- C5: hit resolution follows the reference semantics for every base
configuration (single, double — including the cleared third base when first
was empty —, triple, homerun — 4 runs when loaded), and the computed runs
are added to the batting team's current-inning slot and running total. -/
theorem hit_advancement_semantics (s : GameState) (hitType : Outcome) :
    (∀ b : Bases, advanceRunnersHit b .single =
      (⟨true, b.first, b.second⟩, if b.third then 1 else 0)) ∧
    (∀ b : Bases, advanceRunnersHit b .double =
      (⟨false, true, b.first⟩,
       (if b.second then 1 else 0) + (if b.third then 1 else 0))) ∧
    (∀ b : Bases, advanceRunnersHit b .triple =
      (⟨false, false, true⟩,
       b.first.toNat + b.second.toNat + b.third.toNat)) ∧
    (∀ b : Bases, advanceRunnersHit b .homerun =
      (⟨false, false, false⟩,
       b.first.toNat + b.second.toNat + b.third.toNat + 1)) ∧
    advanceRunnersHit ⟨true, true, true⟩ .homerun =
      (⟨false, false, false⟩, 4) ∧
    (∀ b : Bases, b.first = false →
      (advanceRunnersHit b .double).1.third = false) ∧
    (s.is_top = true → s.inning - 1 < s.away_score.length →
      (recordHit s hitType).away_total =
        s.away_total + (advanceRunnersHit s.bases hitType).2 ∧
      (recordHit s hitType).away_score[s.inning - 1]?.getD 0 =
        s.away_score[s.inning - 1]?.getD 0 +
          (advanceRunnersHit s.bases hitType).2) ∧
    (s.is_top = false → s.inning - 1 < s.home_score.length →
      (recordHit s hitType).home_total =
        s.home_total + (advanceRunnersHit s.bases hitType).2 ∧
      (recordHit s hitType).home_score[s.inning - 1]?.getD 0 =
        s.home_score[s.inning - 1]?.getD 0 +
          (advanceRunnersHit s.bases hitType).2) := by
  refine ⟨?_, ?_, ?_, ?_, by decide, ?_, ?_, ?_⟩
  · rintro ⟨f, sn, t⟩
    cases f <;> cases sn <;> cases t <;> rfl
  · rintro ⟨f, sn, t⟩
    cases f <;> cases sn <;> cases t <;> rfl
  · rintro ⟨f, sn, t⟩
    cases f <;> cases sn <;> cases t <;> rfl
  · rintro ⟨f, sn, t⟩
    cases f <;> cases sn <;> cases t <;> rfl
  · rintro ⟨f, sn, t⟩ h
    revert h
    cases f <;> cases sn <;> cases t <;> decide
  · intro ht hidx
    exact ⟨recordHit_away_total hitType ht, recordHit_away_slot hitType ht hidx⟩
  · intro ht hidx
    exact ⟨recordHit_home_total hitType ht, recordHit_home_slot hitType ht hidx⟩

theorem hit_advancement_semantics_witness :
    advanceRunnersHit ⟨true, true, true⟩ .homerun =
      (⟨false, false, false⟩, 4) ∧
    (recordHit exLoaded .homerun).away_total =
      exLoaded.away_total + (advanceRunnersHit exLoaded.bases .homerun).2 :=
  ⟨(hit_advancement_semantics exLoaded .homerun).2.2.2.2.1,
   ((hit_advancement_semantics exLoaded .homerun).2.2.2.2.2.2.1 rfl
     (by decide)).1⟩

/- ── C7 ───────────────────────────────────────────────────────────────── -/

/-- C7 counterexample: a foul at two strikes does leave balls and strikes
unchanged, but not "all other state": the play message is appended to the
log, so the state is not unchanged. -/
theorem foul_two_strikes_counterexample :
    (applyOutcome exFoulTwoStrikes .foul "Foul!").strikes =
      exFoulTwoStrikes.strikes ∧
    (applyOutcome exFoulTwoStrikes .foul "Foul!").balls =
      exFoulTwoStrikes.balls ∧
    applyOutcome exFoulTwoStrikes .foul "Foul!" ≠ exFoulTwoStrikes := by
  refine ⟨rfl, rfl, ?_⟩
  intro h
  have h2 := congrArg (fun t : GameState => t.play_log.length) h
  simp [applyOutcome, exFoulTwoStrikes, emptyState] at h2

/-- C7 (amended): a foul at strikes = 2 changes nothing except appending
the play message to the log (and `last_play`); a foul at strikes < 2
additionally increments strikes by exactly one; a foul never records an
out, never resets the count, never advances a lineup index, and never
changes the game status. -/
theorem foul_count_behavior (s : GameState) (msg : String) :
    (s.strikes = 2 → applyOutcome s .foul msg =
      { s with play_log := s.play_log ++ [msg], last_play := msg }) ∧
    (s.strikes < 2 → applyOutcome s .foul msg =
      { s with strikes := s.strikes + 1,
               play_log := s.play_log ++ [msg], last_play := msg }) ∧
    (applyOutcome s .foul msg).balls = s.balls ∧
    (applyOutcome s .foul msg).outs = s.outs ∧
    (applyOutcome s .foul msg).strikes =
      (if s.strikes < 2 then s.strikes + 1 else s.strikes) ∧
    (applyOutcome s .foul msg).bases = s.bases ∧
    (applyOutcome s .foul msg).away_batter_idx = s.away_batter_idx ∧
    (applyOutcome s .foul msg).home_batter_idx = s.home_batter_idx ∧
    (applyOutcome s .foul msg).game_status = s.game_status := by
  refine ⟨?_, ?_, ?_⟩
  · intro h2
    have hn : ¬ s.strikes < 2 := by omega
    simp [applyOutcome, hn]
  · intro hlt
    simp [applyOutcome, hlt]
  · by_cases hs : s.strikes < 2 <;>
      refine ⟨?_, ?_, ?_, ?_, ?_, ?_, ?_⟩ <;> simp [applyOutcome, hs]

theorem foul_count_behavior_witness :
    applyOutcome exFoulTwoStrikes .foul "Foul!" =
      { exFoulTwoStrikes with
          play_log := exFoulTwoStrikes.play_log ++ ["Foul!"],
          last_play := "Foul!" } ∧
    (applyOutcome exFoulTwoStrikes .foul "Foul!").outs =
      exFoulTwoStrikes.outs :=
  ⟨(foul_count_behavior exFoulTwoStrikes "Foul!").1 rfl,
   (foul_count_behavior exFoulTwoStrikes "Foul!").2.2.2.1⟩

/- ── C6 ───────────────────────────────────────────────────────────────── -/

/-- C6 counterexample: an out-of-role `process_pitch` call does NOT append
an explanatory log entry — the play log is untouched while the state still
changes (only `last_play` is overwritten). -/
theorem out_of_role_counterexample :
    (processPitch exRoleSwap exPitchInput).play_log = exRoleSwap.play_log ∧
    processPitch exRoleSwap exPitchInput ≠ exRoleSwap := by
  refine ⟨rfl, ?_⟩
  intro h
  have h2 := congrArg GameState.last_play h
  simp [processPitch, exRoleSwap, emptyState] at h2

/-- C6 (amended): an out-of-role call on an active game returns the state
unchanged except that `last_play` is overwritten with an explanatory
message (no log entry is appended); calls on a FINAL game return the state
unchanged, and calls on a FINAL or nonexistent game id leave the stored
state map entirely unchanged. -/
theorem out_of_role_no_log_entry (s : GameState) (inp : PitchInput)
    (binp : BatInput) :
    (s.game_status = .active → s.player_role = .batting →
      processPitch s inp =
        { s with last_play := "You\x27re batting right now, not pitching!" } ∧
      (processPitch s inp).play_log = s.play_log) ∧
    (s.game_status = .active → s.player_role = .pitching →
      processAtBat s binp =
        { s with last_play := "You\x27re pitching right now, not batting!" } ∧
      (processAtBat s binp).play_log = s.play_log) ∧
    (s.game_status = .final →
      processPitch s inp = s ∧ processAtBat s binp = s) ∧
    (∀ st : Store, ∀ gid : String, st gid = none →
      processPitchStore st gid inp = st ∧
      processAtBatStore st gid binp = st) ∧
    (∀ st : Store, ∀ gid : String, st gid = some s →
      s.game_status = .final →
      processPitchStore st gid inp = st ∧
      processAtBatStore st gid binp = st) := by
  refine ⟨?_, ?_, ?_, ?_, ?_⟩
  · intro ha hr
    constructor <;> simp [processPitch, ha, hr]
  · intro ha hr
    constructor <;> simp [processAtBat, ha, hr]
  · intro hf
    exact ⟨processPitch_final inp hf, processAtBat_final binp hf⟩
  · intro st gid hnone
    constructor <;> simp [processPitchStore, processAtBatStore, hnone]
  · intro st gid hsome hf
    constructor <;> simp [processPitchStore, processAtBatStore, hsome, hf]

theorem out_of_role_no_log_entry_witness :
    processPitch exRoleSwap exPitchInput =
      { exRoleSwap with
          last_play := "You\x27re batting right now, not pitching!" } ∧
    (processPitch exRoleSwap exPitchInput).play_log = exRoleSwap.play_log :=
  (out_of_role_no_log_entry exRoleSwap exPitchInput exBatInput).1 rfl rfl

/- ── C9 ───────────────────────────────────────────────────────────────── -/

/-- C9: `game_status` can become FINAL only through the half-inning
transition triggered by the third out: on an active state, a pitch outcome
yields a FINAL status only when there were already two outs and the outcome
produced an out (a batted out, or a third strike); a ball, foul or hit
always leaves the game active, so a mid-half lead change (e.g. the home
team pulling ahead in the bottom of the 9th) never ends the game by
itself. -/
theorem final_only_at_third_out (s : GameState) (o : Outcome) (msg : String)
    (ha : s.game_status = .active) :
    ((applyOutcome s o msg).game_status = .final →
      2 ≤ s.outs ∧
      (o = .groundout ∨ o = .flyout ∨ o = .lineout ∨
       ((o = .strike_looking ∨ o = .strike_swinging) ∧ 2 ≤ s.strikes))) ∧
    ((o = .ball ∨ o = .foul ∨ o = .single ∨ o = .double ∨ o = .triple ∨
      o = .homerun) → (applyOutcome s o msg).game_status = .active) := by
  cases o with
  | ball =>
    have hstat : (applyOutcome s .ball msg).game_status = .active := by
      simp only [applyOutcome]
      split <;> simp [ha]
    exact ⟨fun hf => absurd (hstat.symm.trans hf) (by decide),
           fun _ => hstat⟩
  | foul =>
    have hstat : (applyOutcome s .foul msg).game_status = .active := by
      simp only [applyOutcome]
      split <;> simp [ha]
    exact ⟨fun hf => absurd (hstat.symm.trans hf) (by decide),
           fun _ => hstat⟩
  | single =>
    have hstat : (applyOutcome s .single msg).game_status = .active := by
      simp [applyOutcome, ha]
    exact ⟨fun hf => absurd (hstat.symm.trans hf) (by decide),
           fun _ => hstat⟩
  | double =>
    have hstat : (applyOutcome s .double msg).game_status = .active := by
      simp [applyOutcome, ha]
    exact ⟨fun hf => absurd (hstat.symm.trans hf) (by decide),
           fun _ => hstat⟩
  | triple =>
    have hstat : (applyOutcome s .triple msg).game_status = .active := by
      simp [applyOutcome, ha]
    exact ⟨fun hf => absurd (hstat.symm.trans hf) (by decide),
           fun _ => hstat⟩
  | homerun =>
    have hstat : (applyOutcome s .homerun msg).game_status = .active := by
      simp [applyOutcome, ha]
    exact ⟨fun hf => absurd (hstat.symm.trans hf) (by decide),
           fun _ => hstat⟩
  | strike_looking =>
    refine ⟨?_, by simp⟩
    intro hf
    simp only [applyOutcome] at hf
    by_cases ho : 3 ≤ s.outs + 1
    · by_cases h3 : 3 ≤ s.strikes + 1
      · exact ⟨by omega, Or.inr (Or.inr (Or.inr ⟨Or.inl rfl, by omega⟩))⟩
      · rw [if_neg (by simpa using h3)] at hf
        simp [ha] at hf
    · by_cases h3 : 3 ≤ s.strikes + 1
      · rw [if_pos (by simpa using h3)] at hf
        rw [recordOut_game_status_lt _ _ (by simpa using ho)] at hf
        simp [ha] at hf
      · rw [if_neg (by simpa using h3)] at hf
        simp [ha] at hf
  | strike_swinging =>
    refine ⟨?_, by simp⟩
    intro hf
    simp only [applyOutcome] at hf
    by_cases ho : 3 ≤ s.outs + 1
    · by_cases h3 : 3 ≤ s.strikes + 1
      · exact ⟨by omega, Or.inr (Or.inr (Or.inr ⟨Or.inr rfl, by omega⟩))⟩
      · rw [if_neg (by simpa using h3)] at hf
        simp [ha] at hf
    · by_cases h3 : 3 ≤ s.strikes + 1
      · rw [if_pos (by simpa using h3)] at hf
        rw [recordOut_game_status_lt _ _ (by simpa using ho)] at hf
        simp [ha] at hf
      · rw [if_neg (by simpa using h3)] at hf
        simp [ha] at hf
  | groundout =>
    refine ⟨fun _ => ⟨?_, Or.inl rfl⟩, by simp⟩
    by_contra ho
    have hne := recordOut_game_status_lt
      (s := { s with play_log := s.play_log ++ [msg], last_play := msg })
      (formatOutcome .groundout ++ "!") (by simpa using ho)
    have : (applyOutcome s .groundout msg).game_status = .active := by
      simp only [applyOutcome]
      rw [hne]
      exact ha
    rename_i hf
    exact absurd (this.symm.trans hf) (by decide)
  | flyout =>
    refine ⟨fun _ => ⟨?_, Or.inr (Or.inl rfl)⟩, by simp⟩
    by_contra ho
    have hne := recordOut_game_status_lt
      (s := { s with play_log := s.play_log ++ [msg], last_play := msg })
      (formatOutcome .flyout ++ "!") (by simpa using ho)
    have : (applyOutcome s .flyout msg).game_status = .active := by
      simp only [applyOutcome]
      rw [hne]
      exact ha
    rename_i hf
    exact absurd (this.symm.trans hf) (by decide)
  | lineout =>
    refine ⟨fun _ => ⟨?_, Or.inr (Or.inr (Or.inl rfl))⟩, by simp⟩
    by_contra ho
    have hne := recordOut_game_status_lt
      (s := { s with play_log := s.play_log ++ [msg], last_play := msg })
      (formatOutcome .lineout ++ "!") (by simpa using ho)
    have : (applyOutcome s .lineout msg).game_status = .active := by
      simp only [applyOutcome]
      rw [hne]
      exact ha
    rename_i hf
    exact absurd (this.symm.trans hf) (by decide)

theorem final_only_at_third_out_witness :
    (applyOutcome exBottom9Tied .homerun "Homerun!").game_status = .active :=
  (final_only_at_third_out exBottom9Tied .homerun "Homerun!" rfl).2
    (by simp)

/- ── C8 ───────────────────────────────────────────────────────────────── -/

@[simp] lemma snapshot_game_status (s : GameState) :
    (snapshot s).game_status = s.game_status := rfl

lemma simulateLoop_inactive (stream : Nat → SimInput) (iter fuel : Nat)
    {s : GameState} (h : s.game_status ≠ .active) :
    simulateLoop stream iter fuel s = (s, [], 0) := by
  cases fuel with
  | zero => rfl
  | succ f => simp [simulateLoop, h]

lemma simulateLoop_count_le (stream : Nat → SimInput) (iter fuel : Nat)
    (s : GameState) : (simulateLoop stream iter fuel s).2.2 ≤ fuel := by
  induction fuel generalizing s iter with
  | zero => simp [simulateLoop]
  | succ f ih =>
    unfold simulateLoop
    split
    · simpa using ih _ _
    · simp

lemma simulateLoop_len (stream : Nat → SimInput) (iter fuel : Nat)
    (s : GameState) :
    (simulateLoop stream iter fuel s).2.1.length =
      (simulateLoop stream iter fuel s).2.2 := by
  induction fuel generalizing s iter with
  | zero => rfl
  | succ f ih =>
    unfold simulateLoop
    split
    · simpa using ih _ _
    · rfl

lemma simulateLoop_active (stream : Nat → SimInput) (iter fuel : Nat)
    (s : GameState)
    (h : (simulateLoop stream iter fuel s).1.game_status = .active) :
    (simulateLoop stream iter fuel s).2.2 = fuel := by
  induction fuel generalizing s iter with
  | zero => rfl
  | succ f ih =>
    unfold simulateLoop at h ⊢
    split at h
    · simp only []
      split
      · rw [ih _ _ h]
      · next hc => rename_i hc2; exact absurd hc2 hc
    · next hc => exact absurd h hc

lemma simulateLoop_pos_active (stream : Nat → SimInput) (iter fuel : Nat)
    {s : GameState} (h : 1 ≤ (simulateLoop stream iter fuel s).2.2) :
    s.game_status = .active := by
  by_contra hne
  rw [simulateLoop_inactive stream iter fuel hne] at h
  simp at h

lemma simulateLoop_snap_active (stream : Nat → SimInput) (iter fuel : Nat)
    (s : GameState) (i : Nat)
    (hi : i + 1 < (simulateLoop stream iter fuel s).2.2) :
    ((simulateLoop stream iter fuel s).2.1.getD i default).game_status =
      .active := by
  induction fuel generalizing s iter i with
  | zero => simp [simulateLoop] at hi
  | succ f ih =>
    unfold simulateLoop at hi ⊢
    split at hi
    · next hc =>
      simp only [hc, if_true]
      cases i with
      | zero =>
        simp only [List.getD_cons_zero, snapshot_game_status]
        have h1 : 1 ≤ (simulateLoop stream (iter + 1) f
            (simStep s (stream iter))).2.2 := by
          simp at hi
          omega
        exact simulateLoop_pos_active stream (iter + 1) f h1
      | succ j =>
        simp only [List.getD_cons_succ]
        refine ih _ _ _ ?_
        simp at hi
        omega
    · simp at hi

/-- C8: `simulate_game` on an active game runs at most 500 plays, stops as
soon as the status becomes FINAL (every state snapshotted before the last
executed play is still active), returns whatever state was reached if the
ceiling is hit while still active (iterations = 500 exactly in that case),
and returns one snapshot per executed play plus the initial snapshot
(snapshot 0 = the state before any play). -/
theorem simulate_game_bounds (stream : Nat → SimInput) (s : GameState)
    (ha : s.game_status = .active) :
    (simulateGame stream s).iterations ≤ 500 ∧
    (simulateGame stream s).snapshots.length =
      (simulateGame stream s).iterations + 1 ∧
    (simulateGame stream s).snapshots.head? = some (snapshot s) ∧
    ((simulateGame stream s).state.game_status = .active →
      (simulateGame stream s).iterations = 500) ∧
    (∀ i, i < (simulateGame stream s).iterations →
      ((simulateGame stream s).snapshots.getD i default).game_status =
        .active) := by
  unfold simulateGame
  rw [if_pos ha]
  refine ⟨?_, ?_, rfl, ?_, ?_⟩
  · exact simulateLoop_count_le stream 0 500 s
  · simp [simulateLoop_len]
  · intro hact
    exact simulateLoop_active stream 0 500 s hact
  · intro i hi
    cases i with
    | zero => exact ha
    | succ j => exact simulateLoop_snap_active stream 0 500 s j hi

theorem simulate_game_bounds_witness :
    (simulateGame constStream (createNewGame "s")).iterations ≤ 500 ∧
    (simulateGame constStream (createNewGame "s")).snapshots.length =
      (simulateGame constStream (createNewGame "s")).iterations + 1 ∧
    (simulateGame constStream (createNewGame "s")).snapshots.head? =
      some (snapshot (createNewGame "s")) ∧
    ((simulateGame constStream (createNewGame "s")).state.game_status =
        .active →
      (simulateGame constStream (createNewGame "s")).iterations = 500) ∧
    (∀ i, i < (simulateGame constStream (createNewGame "s")).iterations →
      ((simulateGame constStream
          (createNewGame "s")).snapshots.getD i default).game_status =
        .active) :=
  simulate_game_bounds constStream (createNewGame "s") rfl

/- ── C3 ───────────────────────────────────────────────────────────────── -/

lemma clamp_pos (v : ℚ) : 0 < clamp v (1 - MAX_ADJ) (1 + MAX_ADJ) :=
  lt_of_lt_of_le (by norm_num [MAX_ADJ]) (le_max_left _ _)

/-- Round-half-to-even is within 1/2 of its argument. -/
lemma pyRound_le (q : ℚ) : |(pyRound q : ℚ) - q| ≤ 1/2 := by
  have h0 : (⌊q⌋ : ℚ) ≤ q := Int.floor_le q
  have h1 : q < ⌊q⌋ + 1 := Int.lt_floor_add_one q
  simp only [pyRound]
  split_ifs with ha hb hc
  · rw [abs_le]
    constructor <;> linarith
  · push_cast
    rw [abs_le]
    constructor <;> linarith
  · have hr : q - ⌊q⌋ = 1/2 := le_antisymm (not_lt.mp hb) (not_lt.mp ha)
    rw [abs_le]
    constructor <;> linarith
  · have hr : q - ⌊q⌋ = 1/2 := le_antisymm (not_lt.mp hb) (not_lt.mp ha)
    push_cast
    rw [abs_le]
    constructor <;> linarith

/-- Rounding and flooring to a minimum weight of 1 moves a positive value
by at most 1. -/
lemma max_pyRound_bound {x : ℚ} (hx : 0 < x) :
    |((max 1 (pyRound x) : ℤ) : ℚ) - x| ≤ 1 := by
  have hb := pyRound_le x
  rw [abs_le] at hb ⊢
  rcases le_or_lt 1 (pyRound x) with h1 | h1
  · rw [max_eq_right h1]
    constructor <;> linarith [hb.1, hb.2]
  · have h0 : pyRound x ≤ 0 := by omega
    rw [max_eq_left (by omega : pyRound x ≤ 1)]
    have hcast : ((pyRound x : ℤ) : ℚ) ≤ 0 := by exact_mod_cast h0
    push_cast
    constructor <;> linarith [hb.1, hb.2]

lemma abs_sum_sub_sum_le {α : Type} (l : List α) (f g : α → ℚ)
    (h : ∀ x ∈ l, |f x - g x| ≤ 1) :
    |(l.map f).sum - (l.map g).sum| ≤ l.length := by
  induction l with
  | nil => simp
  | cons a t ih =>
    simp only [List.map_cons, List.sum_cons, List.length_cons]
    have h1 := h a (by simp)
    have h2 := ih (fun x hx => h x (by simp [hx]))
    have heq : f a + (t.map f).sum - (g a + (t.map g).sum) =
        (f a - g a) + ((t.map f).sum - (t.map g).sum) := by ring
    rw [heq]
    calc |(f a - g a) + ((t.map f).sum - (t.map g).sum)|
        ≤ |f a - g a| + |(t.map f).sum - (t.map g).sum| := abs_add _ _
      _ ≤ 1 + t.length := by linarith
      _ = ((t.length + 1 : ℕ) : ℚ) := by push_cast; ring

lemma sum_map_mul_const {α : Type} (l : List α) (f : α → ℚ) (c : ℚ) :
    (l.map (fun x => f x * c)).sum = (l.map f).sum * c := by
  induction l with
  | nil => simp
  | cons a t ih =>
    simp only [List.map_cons, List.sum_cons, ih]
    ring

lemma length_le_sum (l : List ℤ) (h : ∀ w ∈ l, 1 ≤ w) :
    (l.length : ℤ) ≤ l.sum := by
  induction l with
  | nil => simp
  | cons a t ih =>
    have h1 := h a (by simp)
    have h2 := ih (fun w hw => h w (by simp [hw]))
    simp only [List.length_cons, List.sum_cons]
    push_cast
    linarith

/-- Every entry of the rescaled table is an integer of weight at least 1
(given positive entries on input). -/
lemma rescaleRound_entries (l : List (String × ℚ)) (T : ℤ)
    (hpos : ∀ p ∈ l, 0 < p.2) :
    ∀ p ∈ rescaleRound l T, ∃ n : ℤ, p.2 = (n : ℚ) ∧ 1 ≤ n := by
  intro p hp
  unfold rescaleRound at hp
  by_cases hS : 0 < (l.map (·.2)).sum
  · rw [if_pos hS] at hp
    obtain ⟨q, hq, rfl⟩ := List.mem_map.mp hp
    exact ⟨_, rfl, le_max_left _ _⟩
  · rw [if_neg hS] at hp
    exfalso
    apply hS
    apply List.sum_pos
    · intro x hx
      obtain ⟨q, hq, rfl⟩ := List.mem_map.mp hx
      exact hpos q hq
    · simp only [ne_eq, List.map_eq_nil_iff]
      intro hnil
      rw [hnil] at hp
      simp at hp

/-- The rescaled table preserves the original total up to one unit of
rounding per entry. -/
lemma rescaleRound_sum (l : List (String × ℚ)) (T : ℤ)
    (hpos : ∀ p ∈ l, 0 < p.2) (hT : 0 < T) (hne : l ≠ []) :
    |((rescaleRound l T).map (·.2)).sum - (T : ℚ)| ≤ l.length := by
  have hS : 0 < (l.map (·.2)).sum := by
    apply List.sum_pos
    · intro x hx
      obtain ⟨q, hq, rfl⟩ := List.mem_map.mp hx
      exact hpos q hq
    · simpa using hne
  have hSne : ((l.map (·.2)).sum : ℚ) ≠ 0 := ne_of_gt hS
  have hscale : 0 < (T : ℚ) / (l.map (·.2)).sum := by
    apply div_pos
    · exact_mod_cast hT
    · exact hS
  unfold rescaleRound
  rw [if_pos hS]
  have hmm : ((l.map (fun p =>
      (p.1, ((max 1 (pyRound (p.2 * ((T : ℚ) / (l.map (·.2)).sum))) : ℤ) :
        ℚ)))).map (·.2)) =
      l.map (fun p =>
        ((max 1 (pyRound (p.2 * ((T : ℚ) / (l.map (·.2)).sum))) : ℤ) : ℚ)) := by
    rw [List.map_map]
    rfl
  rw [hmm]
  have hexact : (l.map (fun p => p.2 * ((T : ℚ) / (l.map (·.2)).sum))).sum =
      (T : ℚ) := by
    rw [sum_map_mul_const l (·.2) ((T : ℚ) / (l.map (·.2)).sum)]
    field_simp
  calc |(l.map (fun p =>
        ((max 1 (pyRound (p.2 * ((T : ℚ) / (l.map (·.2)).sum))) : ℤ) :
          ℚ))).sum - (T : ℚ)|
      = |(l.map (fun p =>
          ((max 1 (pyRound (p.2 * ((T : ℚ) / (l.map (·.2)).sum))) : ℤ) :
            ℚ))).sum -
         (l.map (fun p => p.2 * ((T : ℚ) / (l.map (·.2)).sum))).sum| := by
        rw [hexact]
    _ ≤ l.length := by
        apply abs_sum_sub_sum_le
        intro p hp
        exact max_pyRound_bound (mul_pos (hpos p hp) hscale)

lemma batterAdjust_pos (player : PlayerStats) (p : String × ℤ)
    (hw : 1 ≤ p.2) : 0 < (batterAdjust player p).2 := by
  have hp2 : (0 : ℚ) < (p.2 : ℚ) := by exact_mod_cast (by omega : (0:ℤ) < p.2)
  simp only [batterAdjust]
  split_ifs <;>
    first
      | exact hp2
      | exact mul_pos hp2 (clamp_pos _)
      | exact mul_pos hp2 one_pos

lemma pitcherAdjust_pos (ps : PitcherStats) (p : String × ℚ)
    (h : 0 < p.2) : 0 < (pitcherAdjust ps p).2 := by
  simp only [pitcherAdjust]
  split_ifs <;> first | exact h | exact mul_pos h (clamp_pos _)

lemma takeAdjust_pos (ps : PitcherStats) (p : String × ℤ)
    (hw : 1 ≤ p.2) : 0 < (takeAdjust ps p).2 := by
  have hp2 : (0 : ℚ) < (p.2 : ℚ) := by exact_mod_cast (by omega : (0:ℤ) < p.2)
  simp only [takeAdjust]
  split_ifs <;> exact mul_pos hp2 (clamp_pos _)

lemma swingAdjusted_pos {base : List (String × ℤ)} {player : PlayerStats}
    {pitcher : Option PitcherStats} (hw : ∀ p ∈ base, 1 ≤ p.2) :
    ∀ p ∈ swingAdjusted base player pitcher, 0 < p.2 := by
  intro p hp
  cases pitcher with
  | none =>
    obtain ⟨q, hq, rfl⟩ := List.mem_map.mp hp
    exact batterAdjust_pos player q (hw q hq)
  | some ps =>
    obtain ⟨q, hq, rfl⟩ := List.mem_map.mp hp
    obtain ⟨q2, hq2, rfl⟩ := List.mem_map.mp hq
    exact pitcherAdjust_pos ps _ (batterAdjust_pos player q2 (hw q2 hq2))

lemma swingAdjusted_length (base : List (String × ℤ)) (player : PlayerStats)
    (pitcher : Option PitcherStats) :
    (swingAdjusted base player pitcher).length = base.length := by
  cases pitcher <;> simp [swingAdjusted]

/-- C3: for every base table with weights ≥ 1 and any batter/pitcher stats,
both adjuster variants return tables whose entries are integers ≥ 1 and
whose total differs from the input total by at most one rounding unit per
entry (the table size). -/
theorem stats_adjuster_weight_preservation
    (base : List (String × ℤ)) (player : PlayerStats)
    (pitcher : Option PitcherStats) (pst : PitcherStats)
    (hw : ∀ p ∈ base, 1 ≤ p.2) :
    (∀ p ∈ calculateAdjustedOutcomes base player pitcher,
      ∃ n : ℤ, p.2 = (n : ℚ) ∧ 1 ≤ n) ∧
    |((calculateAdjustedOutcomes base player pitcher).map (·.2)).sum -
      (((base.map (·.2)).sum : ℤ) : ℚ)| ≤ base.length ∧
    (∀ p ∈ calculateAdjustedTakeOutcomes base pst,
      ∃ n : ℤ, p.2 = (n : ℚ) ∧ 1 ≤ n) ∧
    |((calculateAdjustedTakeOutcomes base pst).map (·.2)).sum -
      (((base.map (·.2)).sum : ℤ) : ℚ)| ≤ base.length := by
  have hwm : ∀ w ∈ base.map (·.2), (1:ℤ) ≤ w := by
    intro w hwmem
    obtain ⟨q, hq, rfl⟩ := List.mem_map.mp hwmem
    exact hw q hq
  have htake_pos : ∀ p ∈ base.map (takeAdjust pst), 0 < p.2 := by
    intro p hp
    obtain ⟨q, hq, rfl⟩ := List.mem_map.mp hp
    exact takeAdjust_pos pst q (hw q hq)
  rcases eq_or_ne base [] with hb | hb
  · subst hb
    cases pitcher <;>
      refine ⟨?_, ?_, ?_, ?_⟩ <;>
        simp [calculateAdjustedOutcomes, calculateAdjustedTakeOutcomes,
              swingAdjusted, rescaleRound]
  · have hlenpos : 0 < base.length := List.length_pos.mpr hb
    have hT : 0 < (base.map (·.2)).sum := by
      have hlen := length_le_sum _ hwm
      have hle : (base.length : ℤ) ≤ (base.map (·.2)).sum := by
        simpa using hlen
      have : (0 : ℤ) < (base.length : ℤ) := by exact_mod_cast hlenpos
      omega
    have hne1 : swingAdjusted base player pitcher ≠ [] := by
      cases pitcher <;> simp [swingAdjusted, hb]
    have hne2 : base.map (takeAdjust pst) ≠ [] := by
      simp [hb]
    refine ⟨?_, ?_, ?_, ?_⟩
    · exact rescaleRound_entries _ _ (swingAdjusted_pos hw)
    · have hs := rescaleRound_sum (swingAdjusted base player pitcher)
        ((base.map (·.2)).sum) (swingAdjusted_pos hw) hT hne1
      rw [swingAdjusted_length] at hs
      exact hs
    · exact rescaleRound_entries _ _ htake_pos
    · have hs := rescaleRound_sum (base.map (takeAdjust pst))
        ((base.map (·.2)).sum) htake_pos hT hne2
      rw [List.length_map] at hs
      exact hs

theorem stats_adjuster_weight_preservation_witness :
    (∀ p ∈ calculateAdjustedOutcomes swingOutcomesFastball exPlayerStats
        (some exPitcherStats), ∃ n : ℤ, p.2 = (n : ℚ) ∧ 1 ≤ n) ∧
    |((calculateAdjustedOutcomes swingOutcomesFastball exPlayerStats
        (some exPitcherStats)).map (·.2)).sum -
      (((swingOutcomesFastball.map (·.2)).sum : ℤ) : ℚ)| ≤
      swingOutcomesFastball.length ∧
    (∀ p ∈ calculateAdjustedTakeOutcomes swingOutcomesFastball
        exPitcherStats, ∃ n : ℤ, p.2 = (n : ℚ) ∧ 1 ≤ n) ∧
    |((calculateAdjustedTakeOutcomes swingOutcomesFastball
        exPitcherStats).map (·.2)).sum -
      (((swingOutcomesFastball.map (·.2)).sum : ℤ) : ℚ)| ≤
      swingOutcomesFastball.length :=
  stats_adjuster_weight_preservation swingOutcomesFastball exPlayerStats
    (some exPitcherStats) exPitcherStats (by decide)

end BaseballGame
